import Mathlib

/-!
Verification of the core logic of `canvas-logs.py`.

The Python program is shallowly embedded:
* `get_ip_location` (the two-provider IP geolocation resolver with a
  process-lifetime cache) becomes a pure function over an abstract `World`
  describing the HTTP responses of the two providers; the mutable global
  `IP_CACHE` dict becomes an explicit association-list state, and the
  number of HTTP requests issued to each provider is recorded in the
  result so that "no network call" claims can be stated.
* `parse_dt` becomes a character-level parser mirroring CPython
  `datetime.strptime` for the three format strings used by the code
  (including strptime's leniency: 1-2 digit month/day/hour/minute/second
  fields and `\s+` for literal whitespace) followed by the `datetime`
  constructor's range validation.
* the timezone conversions (`ZoneInfo("America/New_York")`,
  `astimezone(UTC)`, pandas `tz_convert`) are embedded with the US DST
  rule the IANA database has applied to the zone since 2007 (EST = UTC-5,
  EDT = UTC-4, transitions at the second Sunday of March and the first
  Sunday of November, 02:00 local) and PEP 495 fold=0 disambiguation, over
  instants represented as (year, second-within-year); the zone used other
  transition dates before 2007, so the round-trip claim is stated for
  timestamps in 2007 or later.
* the pandas DataFrame manipulation in `export_query` (geolocation join)
  becomes column-oriented association-list operations.
* `export_query` and `main` become pure functions that also return the
  trace of database queries attempted and the list of files written.
-/

/-! ## Geolocation resolver (`get_ip_location`, canvas-logs.py lines 60-113) -/

/-- The `{country, region, city, isp}` record produced by the resolver. -/
structure GeoRecord where
  country : Option String
  region : Option String
  city : Option String
  isp : Option String
deriving DecidableEq, Repr

/-- The all-null record that failures degrade to. -/
def nullGeo : GeoRecord := ⟨none, none, none, none⟩

/-- A parsed 200-response of provider A (ipinfo.io): the JSON fields read by
the code.  A failed request (non-200 status, timeout, exception, malformed
body) is represented by `none` at the `World` level. -/
structure IpinfoResp where
  country : Option String
  region : Option String
  city : Option String
  org : Option String
deriving DecidableEq, Repr

/-- The nested `connection` object of a provider-B (ipwho.is) response. -/
structure ConnInfo where
  isp : Option String
  org : Option String
deriving DecidableEq, Repr

/-- A parsed 200-response of provider B (ipwho.is). -/
structure IpwhoResp where
  success : Bool
  country_code : Option String
  region : Option String
  city : Option String
  connection : Option ConnInfo
deriving DecidableEq, Repr

/-- The network environment: what each provider answers for each IP.
`none` models any failure (non-200, timeout, exception, malformed body). -/
structure World where
  provA : String → Option IpinfoResp
  provB : String → Option IpwhoResp

/-- The global `IP_CACHE` dict, as an association list. -/
abbrev Cache := List (String × GeoRecord)

/-- Result of one call to `get_ip_location`: the returned record, the cache
after the call, and how many HTTP requests were issued to each provider. -/
structure ResolveOut where
  record : GeoRecord
  cache : Cache
  callsA : Nat
  callsB : Nat
deriving DecidableEq, Repr

/-- Python's `a or b` on optional strings (`None` and `""` are falsy),
as used in `conn.get("isp") or conn.get("org")`. -/
def pyOrStr : Option String → Option String → Option String
  | some s, b => if s = "" then b else some s
  | none, b => b

/-- `data.get("connection") or {}`: a missing (or falsy) connection object
degrades to an empty dict, whose `.get` calls return `None`. -/
def connOrEmpty : Option ConnInfo → ConnInfo
  | some c => c
  | none => ⟨none, none⟩

/-- Embedding of `get_ip_location` (canvas-logs.py lines 64-113).
Empty IP: return all-null immediately (no cache write, no request).
Cache hit: return the cached record (no request).
Otherwise try provider A; on failure try provider B (checking its
`success` flag); cache whatever the outcome is, the all-null record
when both providers fail. -/
def get_ip_location (w : World) (cache : Cache) (ip : String) : ResolveOut :=
  if ip = "" then ⟨nullGeo, cache, 0, 0⟩
  else
    match cache.lookup ip with
    | some rec => ⟨rec, cache, 0, 0⟩
    | none =>
      match w.provA ip with
      | some a =>
        let loc : GeoRecord := ⟨a.country, a.region, a.city, a.org⟩
        ⟨loc, (ip, loc) :: cache, 1, 0⟩
      | none =>
        match w.provB ip with
        | some b =>
          if b.success then
            let conn := connOrEmpty b.connection
            let loc : GeoRecord := ⟨b.country_code, b.region, b.city, pyOrStr conn.isp conn.org⟩
            ⟨loc, (ip, loc) :: cache, 1, 1⟩
          else
            ⟨nullGeo, (ip, nullGeo) :: cache, 1, 1⟩
        | none => ⟨nullGeo, (ip, nullGeo) :: cache, 1, 1⟩

/-- Both providers fail for `ip`: provider A's request fails outright and
provider B either fails outright or reports `success` ≠ `True`. -/
def bothFail (w : World) (ip : String) : Prop :=
  w.provA ip = none ∧ ∀ b, w.provB ip = some b → b.success = false

/-! ## Calendar and America/New_York timezone model

`parse_dt` (canvas-logs.py lines 116-130) attaches
`ZoneInfo("America/New_York")` to a naive wall-clock datetime, and
`export_query` (lines 319-340) converts it to UTC with `astimezone` and
converts result timestamps back with pandas `tz_convert`.  The zoneinfo
database semantics is embedded here: proleptic Gregorian calendar, and the
US DST rule for America/New_York in force since 2007 and projected forward
by tzdata (EST = UTC-5 outside DST, EDT = UTC-4 during DST; DST starts at
02:00 local on the second Sunday of March and ends at 02:00 local on the
first Sunday of November), with PEP 495 fold=0 disambiguation for the
local-to-UTC direction (ambiguous and nonexistent local times use the
offset in force before the transition).

Scope: the IANA history gives America/New_York different transition dates
before 2007 (1987-2006 DST ran from the first Sunday of April to the last
Sunday of October, and earlier years differ further), which this embedding
does not reproduce; the round-trip theorem below therefore carries the
hypothesis that the timestamp's year is 2007 or later, the era in which
the embedded rule is the zone's actual rule. -/

/-- Gregorian leap-year test. -/
def isLeap (y : Nat) : Bool := y % 4 == 0 && (y % 100 != 0 || y % 400 == 0)

/-- 1 in a leap year, 0 otherwise. -/
def leapBit (y : Nat) : Nat := if isLeap y then 1 else 0

/-- Length of month `m` (1-12) of year `y`. -/
def daysInMonth (y m : Nat) : Nat :=
  if m = 2 then 28 + leapBit y
  else if m = 4 ∨ m = 6 ∨ m = 9 ∨ m = 11 then 30 else 31

/-- Days in the months strictly before month `m` of year `y`. -/
def daysBeforeMonth (y m : Nat) : Nat :=
  match m with
  | 1 => 0
  | 2 => 31
  | 3 => 59 + leapBit y
  | 4 => 90 + leapBit y
  | 5 => 120 + leapBit y
  | 6 => 151 + leapBit y
  | 7 => 181 + leapBit y
  | 8 => 212 + leapBit y
  | 9 => 243 + leapBit y
  | 10 => 273 + leapBit y
  | 11 => 304 + leapBit y
  | 12 => 334 + leapBit y
  | _ => 0

/-- 1-based ordinal day of the year of the date `y-m-d`. -/
def dayOfYear (y m d : Nat) : Nat := daysBeforeMonth y m + d

/-- Days from 0001-01-01 (proleptic Gregorian) to January 1st of year `y`. -/
def daysBeforeYear (y : Nat) : Nat :=
  365 * (y - 1) + (y - 1) / 4 + (y - 1) / 400 - (y - 1) / 100

/-- Day of the week of `y-m-d`, with Sunday = 0. -/
def weekdaySun0 (y m d : Nat) : Nat := (daysBeforeYear y + dayOfYear y m d) % 7

/-- Day of month of the second Sunday of March of year `y`. -/
def marchSecondSunday (y : Nat) : Nat := 14 - weekdaySun0 y 3 14

/-- Day of month of the first Sunday of November of year `y`. -/
def novFirstSunday (y : Nat) : Nat := 7 - weekdaySun0 y 11 7

/-- A wall-clock (zone-naive) datetime, as produced by `datetime.strptime`. -/
structure WallDT where
  year : Nat
  month : Nat
  day : Nat
  hour : Nat
  minute : Nat
  second : Nat
deriving DecidableEq, Repr

/-- Seconds from the start of `w.year` to the wall-clock datetime `w`. -/
def wallSecOfYear (w : WallDT) : Nat :=
  86400 * (dayOfYear w.year w.month w.day - 1) +
    3600 * w.hour + 60 * w.minute + w.second

/-- Number of seconds in year `y`. -/
def yearSecs (y : Nat) : Nat := 86400 * (365 + leapBit y)

/-- Second-of-year (in local wall-clock terms) at which DST starts in year
`y` under the rule in force since 2007: 02:00 on the second Sunday of
March. -/
def springWallSec (y : Nat) : Nat :=
  86400 * (dayOfYear y 3 (marchSecondSunday y) - 1) + 7200

/-- Second-of-year (in local wall-clock terms) at which DST ends in year
`y` under the rule in force since 2007: 02:00 on the first Sunday of
November. -/
def fallWallSec (y : Nat) : Nat :=
  86400 * (dayOfYear y 11 (novFirstSunday y) - 1) + 7200

/-- Seconds to add to an America/New_York wall clock (PEP 495 fold = 0,
which is what `datetime.strptime` produces) to obtain UTC: 14400 during
EDT, 18000 during EST, with the transitions of the rule in force since
2007 (faithful to `ZoneInfo` for years 2007 onward only).  For fold = 0,
ambiguous local times (the repeated hour in November) and nonexistent
local times (the skipped hour in March) both resolve to the offset in
force before the transition. -/
def nyWallShift (y s : Nat) : Nat :=
  if springWallSec y + 3600 ≤ s ∧ s < fallWallSec y then 14400 else 18000

/-- Seconds to subtract from a UTC second-of-year to obtain the
America/New_York wall clock, with the transitions of the rule in force
since 2007 (faithful to `ZoneInfo` for years 2007 onward only).  In UTC
terms, EDT is in force from 07:00 UTC on the second Sunday of March
(02:00 EST) to 06:00 UTC on the first Sunday of November (02:00 EDT). -/
def nyInstShift (y s : Nat) : Nat :=
  if springWallSec y + 18000 ≤ s ∧ s < fallWallSec y + 14400 then 14400 else 18000

/-- An instant, represented as a year and a second-of-year in UTC
(respectively a wall-clock year and second-of-year for the output of
`toDisplayZone`). -/
structure Instant where
  year : Nat
  sec : Nat
deriving DecidableEq, Repr

/-- `start_ts.astimezone(ZoneInfo("UTC"))` applied to an
America/New_York-aware datetime (canvas-logs.py lines 320-321): shift the
wall clock by the zone offset for that wall time, carrying into the next
year when the shift crosses New Year. -/
def toUTC (w : WallDT) : Instant :=
  let s := wallSecOfYear w + nyWallShift w.year (wallSecOfYear w)
  if s < yearSecs w.year then ⟨w.year, s⟩ else ⟨w.year + 1, s - yearSecs w.year⟩

/-- pandas `dt.tz_convert("America/New_York")` followed by
`dt.tz_localize(None)` applied to a UTC instant (canvas-logs.py lines
334-340): shift the instant by the zone offset for that instant, borrowing
from the previous year when the shift crosses New Year.  The result is a
zone-naive wall clock, represented as (year, wall second-of-year). -/
def toDisplayZone (i : Instant) : Instant :=
  let k := nyInstShift i.year i.sec
  if i.sec < k then ⟨i.year - 1, yearSecs (i.year - 1) + i.sec - k⟩ else ⟨i.year, i.sec - k⟩

/-- Instant comparison, as Python compares timezone-aware datetimes
(by the instant they denote). -/
def instLE (a b : Instant) : Prop :=
  a.year < b.year ∨ (a.year = b.year ∧ a.sec ≤ b.sec)

instance (a b : Instant) : Decidable (instLE a b) := by
  unfold instLE
  infer_instance

/-- The wall-clock datetime `w` falls in the nonexistent spring-forward gap
(02:00-03:00 local on the second Sunday of March — the program's actual
gap only for years 2007 onward, the era the DST rule embedded here is
taken from). -/
def inSpringGap (w : WallDT) : Prop :=
  springWallSec w.year ≤ wallSecOfYear w ∧
    wallSecOfYear w < springWallSec w.year + 3600

instance (w : WallDT) : Decidable (inSpringGap w) := by
  unfold inSpringGap
  infer_instance

/-! ## `parse_dt` (canvas-logs.py lines 116-130)

`parse_dt` strips the input and tries `datetime.strptime` with the three
formats `"%Y-%m-%d %H:%M:%S"`, `"%Y-%m-%dT%H:%M:%S"`, `"%Y-%m-%d"` in
order, raising `argparse.ArgumentTypeError` when all fail.  CPython's
`_strptime` compiles each directive to a regex — `%Y` matches exactly four
digits; `%m`, `%d`, `%H`, `%M`, `%S` match one or two digits within their
respective ranges; a literal whitespace character matches `\s+` — requires
the whole string to match, and then the `datetime` constructor validates
`MINYEAR <= year <= MAXYEAR` and the day against the month length.  The
three shapes are mutually exclusive (space run vs `'T'` vs end-of-string
after the day), so the embedding first matches the shape (digit-run
lengths and delimiters) and then applies the combined range checks; this
is equivalent to running the per-format regex (which bounds each field)
followed by the constructor check, format by format. -/

/-- The six characters Python's `str.strip` and the regex class `\s`
treat as whitespace (ASCII range). -/
def pyIsSpace (c : Char) : Bool :=
  c = ' ' ∨ c = '\t' ∨ c = '\n' ∨ c = '\x0b' ∨ c = '\x0c' ∨ c = '\r'

/-- `value.strip()`. -/
def pyStrip (cs : List Char) : List Char :=
  ((cs.dropWhile pyIsSpace).reverse.dropWhile pyIsSpace).reverse

/-- Numeric value of a digit run. -/
def readNat (cs : List Char) : Nat :=
  cs.foldl (fun a c => 10 * a + (c.toNat - 48)) 0

/-- Consume a run of exactly four digits (`%Y`). -/
def parseYear4 (cs : List Char) : Option (Nat × List Char) :=
  match cs.span Char.isDigit with
  | (ds, rest) => if ds.length = 4 then some (readNat ds, rest) else none

/-- Consume a run of one or two digits (`%m`, `%d`, `%H`, `%M`, `%S`;
their value ranges are checked in `mkValidDT`). -/
def parseNum2 (cs : List Char) : Option (Nat × List Char) :=
  match cs.span Char.isDigit with
  | (ds, rest) => if ds.length = 1 ∨ ds.length = 2 then some (readNat ds, rest) else none

/-- Consume one expected literal character. -/
def expectChar (c : Char) (cs : List Char) : Option (List Char) :=
  match cs with
  | x :: rest => if x = c then some rest else none
  | [] => none

/-- Consume a nonempty whitespace run (`\s+`, what a literal space in a
strptime format matches). -/
def expectSpaces (cs : List Char) : Option (List Char) :=
  match cs.span pyIsSpace with
  | (sp, rest) => if sp.isEmpty then none else some rest

/-- `%Y-%m-%d`: year, month and day fields with `-` separators. -/
def parseYMD (cs : List Char) : Option (Nat × Nat × Nat × List Char) := do
  let (y, r1) ← parseYear4 cs
  let r2 ← expectChar '-' r1
  let (mo, r3) ← parseNum2 r2
  let r4 ← expectChar '-' r3
  let (d, r5) ← parseNum2 r4
  pure (y, mo, d, r5)

/-- `%H:%M:%S` followed by end of input. -/
def parseHMS (cs : List Char) : Option (Nat × Nat × Nat) := do
  let (hh, r1) ← parseNum2 cs
  let r2 ← expectChar ':' r1
  let (mi, r3) ← parseNum2 r2
  let r4 ← expectChar ':' r3
  let (ss, r5) ← parseNum2 r4
  if r5.isEmpty then pure (hh, mi, ss) else none

/-- Shape of `"%Y-%m-%d %H:%M:%S"`. -/
def parseShape1 (cs : List Char) : Option (Nat × Nat × Nat × Nat × Nat × Nat) := do
  let (y, mo, d, r) ← parseYMD cs
  let r1 ← expectSpaces r
  let (hh, mi, ss) ← parseHMS r1
  pure (y, mo, d, hh, mi, ss)

/-- Shape of `"%Y-%m-%dT%H:%M:%S"`. -/
def parseShape2 (cs : List Char) : Option (Nat × Nat × Nat × Nat × Nat × Nat) := do
  let (y, mo, d, r) ← parseYMD cs
  let r1 ← expectChar 'T' r
  let (hh, mi, ss) ← parseHMS r1
  pure (y, mo, d, hh, mi, ss)

/-- Shape of `"%Y-%m-%d"` (nothing may follow the day). -/
def parseShape3 (cs : List Char) : Option (Nat × Nat × Nat) := do
  let (y, mo, d, r) ← parseYMD cs
  if r.isEmpty then pure (y, mo, d) else none

/-- The combined field-range checks: the strptime regex bounds
(month 1-12 structurally, day at most 31, hour at most 23, minute and
second at most 59) together with the `datetime` constructor checks
(`MINYEAR = 1 <= year <= MAXYEAR = 9999`, day at most the month length). -/
def mkValidDT (y mo d hh mi ss : Nat) : Option WallDT :=
  if 1 ≤ y ∧ y ≤ 9999 ∧ 1 ≤ mo ∧ mo ≤ 12 ∧ 1 ≤ d ∧ d ≤ daysInMonth y mo ∧
      hh ≤ 23 ∧ mi ≤ 59 ∧ ss ≤ 59 then
    some ⟨y, mo, d, hh, mi, ss⟩
  else none

/-- Embedding of `parse_dt` (canvas-logs.py lines 116-130).  `none` models
the raised `argparse.ArgumentTypeError` (the spec's FormatError).  The
date-only format implies midnight, and the result carries the
America/New_York zone (interpreted by `toUTC`). -/
def parse_dt (s : String) : Option WallDT :=
  let cs := pyStrip s.data
  match parseShape1 cs with
  | some (y, mo, d, hh, mi, ss) => mkValidDT y mo d hh mi ss
  | none =>
    match parseShape2 cs with
    | some (y, mo, d, hh, mi, ss) => mkValidDT y mo d hh mi ss
    | none =>
      match parseShape3 cs with
      | some (y, mo, d) => mkValidDT y mo d 0 0 0
      | none => none

/-! ## DataFrame model and the geolocation join
(`export_query`, canvas-logs.py lines 342-372)

A pandas DataFrame with unique column labels is modelled column-oriented:
an ordered association list from column name to the list of cell values.
Cells are optional strings (`none` models null/NaN; the claims under
verification only concern IP-bearing and geolocation columns, whose cells
are strings). -/

/-- A cell value (`none` = null/NaN). -/
abbrev Cell := Option String

/-- A DataFrame: ordered list of (column name, column values). -/
abbrev DFrame := List (String × List Cell)

/-- `df.columns`. -/
def dfNames (df : DFrame) : List String := df.map (·.1)

/-- `df[name] = vals`: replace the column in place when the label exists,
otherwise append it on the right (pandas column assignment). -/
def setCol (df : DFrame) (name : String) (vals : List Cell) : DFrame :=
  if (dfNames df).contains name then
    df.map (fun p => if p.1 = name then (name, vals) else p)
  else df ++ [(name, vals)]

/-- `df[cols]`: select columns by label in the given order. -/
def selectCols (df : DFrame) (names : List String) : DFrame :=
  names.filterMap (fun n => (df.lookup n).map (fun v => (n, v)))

/-- Python `list.insert(i, a)` (clamps at the end when `i` exceeds the
length). -/
def pyInsert (l : List α) (i : Nat) (a : α) : List α :=
  l.take i ++ a :: l.drop i

/-- `str.lower()` for the ASCII column labels this program compares
(character-wise `Char.toLower`, which the kernel can evaluate). -/
def pyLower (s : String) : String := ⟨s.data.map Char.toLower⟩

/-- The fixed candidate list for the IP-bearing column, matched
case-insensitively (line 343); `ip_cols[0]` takes the first match. -/
def isIpName (c : String) : Bool :=
  pyLower c = "ip" ∨ pyLower c = "remote_ip" ∨ pyLower c = "ip_at_submit"

/-- First-occurrence-preserving deduplication
(`df[ip_col].dropna().unique()`). -/
def dedupFirst (l : List String) : List String :=
  l.foldl (fun acc x => if acc.contains x then acc else acc ++ [x]) []

/-- The per-IP resolution loop (lines 353-357): resolve each distinct IP
exactly once through `get_ip_location`, threading the cache, and build
`location_map`.  Also accumulates the number of provider HTTP requests. -/
def buildLocMap (w : World) : Cache → List String → List (String × GeoRecord) × Cache × Nat
  | cache, [] => ([], cache, 0)
  | cache, ip :: rest =>
    let o := get_ip_location w cache ip
    let (m, cache1, n) := buildLocMap w o.cache rest
    ((ip, o.record) :: m, cache1, o.callsA + o.callsB + n)

/-- One geolocation cell for one IP cell:
`location_map.get(str(x), {}).get(field) if pd.notna(x) else None`. -/
def geoField (m : List (String × GeoRecord)) (f : GeoRecord → Option String) (x : Cell) : Cell :=
  match x with
  | none => none
  | some s => (m.lookup s).bind f

/-- The geolocation-join block of `export_query` (lines 342-372): when an
IP-bearing column exists, resolve the distinct non-null IPs, assign the
four geolocation columns, and reorder the columns so that
country/region/city/isp sit right after the IP column.  Returns the new
frame, the cache after the lookups, and the number of provider requests. -/
def geoJoin (w : World) (cache : Cache) (df : DFrame) : DFrame × Cache × Nat :=
  match (dfNames df).find? isIpName with
  | none => (df, cache, 0)
  | some ipName =>
    let ipVals := (df.lookup ipName).getD []
    let uips := dedupFirst (ipVals.filterMap id)
    let (m, cache1, calls) := buildLocMap w cache uips
    let df1 := setCol df "country" (ipVals.map (geoField m (·.country)))
    let df2 := setCol df1 "region" (ipVals.map (geoField m (·.region)))
    let df3 := setCol df2 "city" (ipVals.map (geoField m (·.city)))
    let df4 := setCol df3 "isp" (ipVals.map (geoField m (·.isp)))
    let ipIdx := (dfNames df4).findIdx (· = ipName)
    let cols0 := (dfNames df4).filter
      (fun c => ¬ (c = "country" ∨ c = "region" ∨ c = "city" ∨ c = "isp"))
    let cols1 := pyInsert cols0 (ipIdx + 1) "country"
    let cols2 := pyInsert cols1 (ipIdx + 2) "region"
    let cols3 := pyInsert cols2 (ipIdx + 3) "city"
    let cols4 := pyInsert cols3 (ipIdx + 4) "isp"
    (selectCols df4 cols4, cache1, calls)

/-! ## `export_query` (canvas-logs.py lines 296-381) and `main` (384-413) -/

/-- The errors `export_query` can raise.  `unknownQuery` and
`invalidWindow` are the two `ValueError`s of lines 310-314 (the spec's
UnknownQueryError and InvalidWindowError); `dbError` stands for any
failure executing the named query (the spec's DataStoreError). -/
inductive ExpErr where
  | unknownQuery
  | invalidWindow
  | dbError
deriving DecidableEq, Repr

/-- The environment of a run: the two geolocation providers, the database
(a function from query type, username and UTC window to a result frame,
`none` modelling any database failure), and whether `python-docx` is
importable. -/
structure Env where
  provA : String → Option IpinfoResp
  provB : String → Option IpwhoResp
  db : String → String → Instant → Instant → Option DFrame
  docxAvailable : Bool

/-- The provider part of an environment. -/
def Env.world (e : Env) : World := ⟨e.provA, e.provB⟩

/-- Result of one `export_query` call: the produced frame or the raised
error, the list of database queries attempted (by query type), the number
of provider HTTP requests, the cache after the call, and the files
written. -/
structure ExportOut where
  result : Except ExpErr DFrame
  dbTrace : List String
  provCalls : Nat
  cache : Cache
  files : List String
deriving Repr

/-- `os.path.dirname` for the slash-separated paths this program builds. -/
def pyDirname (s : String) : String :=
  String.intercalate "/" ((s.splitOn "/").dropLast)

/-- `os.path.basename(os.path.normpath(s))` for the simple relative paths
this program builds: the last nonempty slash-separated component. -/
def pyNormBase (s : String) : String :=
  (((s.splitOn "/").filter (fun p => p ≠ "")).getLastD s)

/-- The path of the Word summary written alongside a submissions
spreadsheet (lines 189-192): `<dir>/<dirbasename>-summary.docx`. -/
def docxPathFor (output_path : String) : String :=
  pyDirname output_path ++ "/" ++ pyNormBase (pyDirname output_path) ++ "-summary.docx"

/-- Embedding of `export_query` (lines 296-381).  Checks the query type
(line 310) then the window (line 313) before any network or database
work; converts the window bounds to UTC; runs the named query; joins in
geolocation via `geoJoin`; writes the spreadsheet and, for the
submissions query when `python-docx` is available, the Word summary.
The datetime-column localization (lines 334-340) is value-level only
(modelled by `toDisplayZone`) and does not affect the column structure
or the claims below, so the frame passes through it unchanged here. -/
def export_query (env : Env) (cache : Cache) (query_type username : String)
    (start_ts end_ts : WallDT) (output_path : String) : ExportOut :=
  if ¬ (query_type = "activity" ∨ query_type = "submissions") then
    ⟨.error .unknownQuery, [], 0, cache, []⟩
  else if instLE (toUTC end_ts) (toUTC start_ts) then
    ⟨.error .invalidWindow, [], 0, cache, []⟩
  else
    match env.db query_type username (toUTC start_ts) (toUTC end_ts) with
    | none => ⟨.error .dbError, [query_type], 0, cache, []⟩
    | some df =>
      let (df1, cache1, calls) := geoJoin env.world cache df
      let files :=
        if query_type = "submissions" ∧ env.docxAvailable then
          [output_path, docxPathFor output_path]
        else [output_path]
      ⟨.ok df1, [query_type], calls, cache1, files⟩

/-- The command-line arguments of a run. -/
structure Args where
  username : String
  startStr : String
  endStr : String
  outputDir : Option String
deriving Repr

/-- Output directory of a run (defaults to the username, line 394). -/
def outDirOf (a : Args) : String :=
  match a.outputDir with
  | some d => d
  | none => a.username

/-- Path of the activity spreadsheet of a run (lines 398-403). -/
def activityPath (a : Args) : String :=
  outDirOf a ++ "/" ++ pyNormBase (outDirOf a) ++ "-activity.xlsx"

/-- Path of the submissions spreadsheet of a run. -/
def submissionsPath (a : Args) : String :=
  outDirOf a ++ "/" ++ pyNormBase (outDirOf a) ++ "-submissions.xlsx"

/-- Result of a run: process exit code, files written (in order), and the
trace of database queries attempted (in order). -/
structure RunOut where
  exitCode : Nat
  files : List String
  dbTrace : List String
deriving DecidableEq, Repr

/-- The activity export of a run (first iteration of the loop at line 402,
starting from the empty process-lifetime IP cache). -/
def activityExport (env : Env) (args : Args) (st en : WallDT) : ExportOut :=
  export_query env [] "activity" args.username st en (activityPath args)

/-- The submissions export of a run (second iteration of the loop,
continuing from the cache state the activity export left behind). -/
def submissionsExport (env : Env) (args : Args) (st en : WallDT) : ExportOut :=
  export_query env (activityExport env args st en).cache "submissions" args.username st en
    (submissionsPath args)

/-- Embedding of `main` (lines 384-413) plus the surrounding
`argparse`/`SystemExit` behaviour.  `--start`/`--end` are parsed by
`parse_dt` as argparse `type=` callables: when one raises,
`argparse` calls `parser.error`, which exits the process with status 2
before `main`'s try block runs (so with no file written and no database
touched).  Otherwise the try block runs the activity export then the
submissions export, sharing the process-lifetime IP cache; the first
raised error is printed and the run returns 1, keeping the files already
written; full success returns 0. -/
def mainProg (env : Env) (args : Args) : RunOut :=
  match parse_dt args.startStr, parse_dt args.endStr with
  | some st, some en =>
    match (activityExport env args st en).result with
    | .error _ => ⟨1, (activityExport env args st en).files, (activityExport env args st en).dbTrace⟩
    | .ok _ =>
      match (submissionsExport env args st en).result with
      | .error _ => ⟨1, (activityExport env args st en).files ++ (submissionsExport env args st en).files,
          (activityExport env args st en).dbTrace ++ (submissionsExport env args st en).dbTrace⟩
      | .ok _ => ⟨0, (activityExport env args st en).files ++ (submissionsExport env args st en).files,
          (activityExport env args st en).dbTrace ++ (submissionsExport env args st en).dbTrace⟩
  | _, _ => ⟨2, [], []⟩

/-! ## Spec-side timestamp patterns

The spec says `parse_dt` "accepts exactly" the three patterns
`YYYY-MM-DD HH:MM:SS`, `YYYY-MM-DDTHH:MM:SS` and `YYYY-MM-DD`.  These
definitions follow the spec's words (fixed-width digit fields with the
displayed separators), for comparison with the code's parser. -/

/-- Strict shape `YYYY-MM-DD HH:MM:SS` (spec pattern 1). -/
def specShape1 (s : String) : Bool :=
  match s.data with
  | [y1, y2, y3, y4, '-', m1, m2, '-', d1, d2, ' ', h1, h2, ':', n1, n2, ':', s1, s2] =>
    [y1, y2, y3, y4, m1, m2, d1, d2, h1, h2, n1, n2, s1, s2].all Char.isDigit
  | _ => false

/-- Strict shape `YYYY-MM-DDTHH:MM:SS` (spec pattern 2). -/
def specShape2 (s : String) : Bool :=
  match s.data with
  | [y1, y2, y3, y4, '-', m1, m2, '-', d1, d2, 'T', h1, h2, ':', n1, n2, ':', s1, s2] =>
    [y1, y2, y3, y4, m1, m2, d1, d2, h1, h2, n1, n2, s1, s2].all Char.isDigit
  | _ => false

/-- Strict shape `YYYY-MM-DD` (spec pattern 3). -/
def specShape3 (s : String) : Bool :=
  match s.data with
  | [y1, y2, y3, y4, '-', m1, m2, '-', d1, d2] =>
    [y1, y2, y3, y4, m1, m2, d1, d2].all Char.isDigit
  | _ => false

/-- Two-digit zero-padded rendering of `n < 100`. -/
def pad2 (n : Nat) : List Char :=
  [Char.ofNat (48 + n / 10), Char.ofNat (48 + n % 10)]

/-- Four-digit zero-padded rendering of `n < 10000`. -/
def pad4 (n : Nat) : List Char :=
  [Char.ofNat (48 + n / 1000), Char.ofNat (48 + n / 100 % 10),
   Char.ofNat (48 + n / 10 % 10), Char.ofNat (48 + n % 10)]

/-- The strict text `YYYY-MM-DD HH:MM:SS` for the given fields. -/
def render1 (y mo d hh mi ss : Nat) : String :=
  ⟨pad4 y ++ '-' :: (pad2 mo ++ '-' :: (pad2 d ++ ' ' :: (pad2 hh ++ ':' :: (pad2 mi ++ ':' :: pad2 ss))))⟩

/-- The strict text `YYYY-MM-DDTHH:MM:SS` for the given fields. -/
def render2 (y mo d hh mi ss : Nat) : String :=
  ⟨pad4 y ++ '-' :: (pad2 mo ++ '-' :: (pad2 d ++ 'T' :: (pad2 hh ++ ':' :: (pad2 mi ++ ':' :: pad2 ss))))⟩

/-- The strict text `YYYY-MM-DD` for the given fields. -/
def render3 (y mo d : Nat) : String :=
  ⟨pad4 y ++ '-' :: (pad2 mo ++ '-' :: pad2 d)⟩

/-- A run environment whose database always succeeds with an empty result
frame and whose providers always fail (used to instantiate theorems at
concrete inputs). -/
def stubEnv : Env := ⟨fun _ => none, fun _ => none, fun _ _ _ _ => some [], false⟩

/-- A run environment whose database always fails. -/
def failEnv : Env := ⟨fun _ => none, fun _ => none, fun _ _ _ _ => none, false⟩

/-- Concrete command-line arguments with well-formed timestamps. -/
def demoArgs : Args := ⟨"u", "2025-01-02", "2025-01-03", none⟩

/-- Concrete command-line arguments whose start timestamp is malformed. -/
def badStartArgs : Args := ⟨"u", "garbage", "2025-01-03", none⟩


/-! ## Theorems -/

/-! ### Claims about the resolver -/

/-- C1: the resolver is total (the Lean embedding is a total function, as the
Python function returns on every control path); when both providers fail for a
non-empty, uncached IP it returns the all-null record, stores it in the cache,
and a repeated resolution of that IP issues no further provider requests. -/
theorem get_ip_location_total_bothFail (w : World) (c : Cache) (ip : String)
    (hip : ip ≠ "") (hc : c.lookup ip = none) (hf : bothFail w ip) :
    (get_ip_location w c ip).record = nullGeo ∧
    (get_ip_location w c ip).cache.lookup ip = some nullGeo ∧
    (get_ip_location w (get_ip_location w c ip).cache ip).callsA = 0 ∧
    (get_ip_location w (get_ip_location w c ip).cache ip).callsB = 0 := by
  obtain ⟨ha, hb⟩ := hf
  unfold get_ip_location
  rw [if_neg hip, hc, ha]
  cases hpb : w.provB ip with
  | none => simp [List.lookup, hip]
  | some b =>
    have hsucc := hb b hpb
    simp [List.lookup, hip, hsucc]

/-- Witness for C1 at a concrete world, cache and IP. -/
theorem get_ip_location_total_bothFail_witness :
    ("198.51.100.7" : String) ≠ "" ∧
    (([] : Cache).lookup "198.51.100.7" = none) ∧
    bothFail ⟨fun _ => none, fun _ => some ⟨false, none, none, none, none⟩⟩ "198.51.100.7" ∧
    ((get_ip_location ⟨fun _ => none, fun _ => some ⟨false, none, none, none, none⟩⟩ [] "198.51.100.7").record = nullGeo ∧
     (get_ip_location ⟨fun _ => none, fun _ => some ⟨false, none, none, none, none⟩⟩ [] "198.51.100.7").cache.lookup "198.51.100.7" = some nullGeo ∧
     (get_ip_location ⟨fun _ => none, fun _ => some ⟨false, none, none, none, none⟩⟩ (get_ip_location ⟨fun _ => none, fun _ => some ⟨false, none, none, none, none⟩⟩ [] "198.51.100.7").cache "198.51.100.7").callsA = 0 ∧
     (get_ip_location ⟨fun _ => none, fun _ => some ⟨false, none, none, none, none⟩⟩ (get_ip_location ⟨fun _ => none, fun _ => some ⟨false, none, none, none, none⟩⟩ [] "198.51.100.7").cache "198.51.100.7").callsB = 0) := by
  refine ⟨by decide, by decide, ⟨rfl, fun b hb => by cases hb; rfl⟩, ?_⟩
  exact get_ip_location_total_bothFail _ _ _ (by decide) (by decide)
    ⟨rfl, fun b hb => by cases hb; rfl⟩

/-- C2: cache idempotence.  For a non-empty IP, the first resolution leaves the
resolved record in the cache; a second resolution of the same IP issues no
provider requests, leaves the cache unchanged and returns the identical record
(including the all-null failure placeholder); and a resolution never overwrites
an existing cache entry. -/
theorem get_ip_location_cache_idempotent (w : World) (c : Cache) (ip k : String)
    (r : GeoRecord) (hip : ip ≠ "") (hk : c.lookup k = some r) :
    (get_ip_location w c ip).cache.lookup ip = some (get_ip_location w c ip).record ∧
    (get_ip_location w (get_ip_location w c ip).cache ip).record = (get_ip_location w c ip).record ∧
    (get_ip_location w (get_ip_location w c ip).cache ip).cache = (get_ip_location w c ip).cache ∧
    (get_ip_location w (get_ip_location w c ip).cache ip).callsA = 0 ∧
    (get_ip_location w (get_ip_location w c ip).cache ip).callsB = 0 ∧
    (get_ip_location w c ip).cache.lookup k = some r := by
  unfold get_ip_location
  rw [if_neg hip]
  cases hcl : c.lookup ip with
  | some rec =>
    have hne : ip ≠ k ∨ ip = k := by tauto
    simp [hcl, hip, hk]
  | none =>
    have hkip : (k == ip) = false := by
      rw [beq_eq_false_iff_ne]
      intro hbeq
      rw [hbeq] at hk
      rw [hk] at hcl
      exact Option.noConfusion hcl
    have hipk : (ip == k) = false := by
      rw [beq_eq_false_iff_ne]
      intro h
      rw [beq_eq_false_iff_ne] at hkip
      exact hkip h.symm
    cases hpa : w.provA ip with
    | some a => simp [hip, List.lookup, hk, hipk, hkip]
    | none =>
      cases hpb : w.provB ip with
      | none => simp [hip, List.lookup, hk, hipk, hkip]
      | some b =>
        by_cases hs : b.success = true
        · simp [hip, List.lookup, hk, hipk, hkip, hs]
        · simp [hip, List.lookup, hk, hipk, hkip, hs]

/-- Witness for C2 at a concrete world, cache, IP and pre-existing key. -/
theorem get_ip_location_cache_idempotent_witness :
    (("203.0.113.9" : String) ≠ "") ∧
    (([("192.0.2.1", nullGeo)] : Cache).lookup "192.0.2.1" = some nullGeo) ∧
    ((get_ip_location ⟨fun _ => none, fun _ => none⟩ [("192.0.2.1", nullGeo)] "203.0.113.9").cache.lookup "203.0.113.9" = some (get_ip_location ⟨fun _ => none, fun _ => none⟩ [("192.0.2.1", nullGeo)] "203.0.113.9").record ∧
     (get_ip_location ⟨fun _ => none, fun _ => none⟩ (get_ip_location ⟨fun _ => none, fun _ => none⟩ [("192.0.2.1", nullGeo)] "203.0.113.9").cache "203.0.113.9").record = (get_ip_location ⟨fun _ => none, fun _ => none⟩ [("192.0.2.1", nullGeo)] "203.0.113.9").record ∧
     (get_ip_location ⟨fun _ => none, fun _ => none⟩ (get_ip_location ⟨fun _ => none, fun _ => none⟩ [("192.0.2.1", nullGeo)] "203.0.113.9").cache "203.0.113.9").cache = (get_ip_location ⟨fun _ => none, fun _ => none⟩ [("192.0.2.1", nullGeo)] "203.0.113.9").cache ∧
     (get_ip_location ⟨fun _ => none, fun _ => none⟩ (get_ip_location ⟨fun _ => none, fun _ => none⟩ [("192.0.2.1", nullGeo)] "203.0.113.9").cache "203.0.113.9").callsA = 0 ∧
     (get_ip_location ⟨fun _ => none, fun _ => none⟩ (get_ip_location ⟨fun _ => none, fun _ => none⟩ [("192.0.2.1", nullGeo)] "203.0.113.9").cache "203.0.113.9").callsB = 0 ∧
     (get_ip_location ⟨fun _ => none, fun _ => none⟩ [("192.0.2.1", nullGeo)] "203.0.113.9").cache.lookup "192.0.2.1" = some nullGeo) := by
  refine ⟨by decide, by decide, ?_⟩
  exact get_ip_location_cache_idempotent _ _ _ _ _ (by decide) (by decide)

/-- C3: provider fallback.  If provider A fails for `203.0.113.5` and provider
B answers 200 with `success = true`, country code `US`, region `CA`, city
`Mountain View` and connection ISP `ExampleISP`, then resolving `203.0.113.5`
in a fresh run returns exactly that record. -/
theorem get_ip_location_fallback (w : World)
    (ha : w.provA "203.0.113.5" = none)
    (hb : w.provB "203.0.113.5" =
      some ⟨true, some "US", some "CA", some "Mountain View", some ⟨some "ExampleISP", none⟩⟩) :
    (get_ip_location w [] "203.0.113.5").record =
      ⟨some "US", some "CA", some "Mountain View", some "ExampleISP"⟩ := by
  unfold get_ip_location
  rw [if_neg (by decide)]
  simp only [List.lookup, ha, hb]
  simp [connOrEmpty, pyOrStr]

/-- Witness for C3 at a concrete world. -/
theorem get_ip_location_fallback_witness :
    ((World.mk (fun _ => none) (fun ip => if ip = "203.0.113.5" then some ⟨true, some "US", some "CA", some "Mountain View", some ⟨some "ExampleISP", none⟩⟩ else none)).provA "203.0.113.5" = none) ∧
    ((World.mk (fun _ => none) (fun ip => if ip = "203.0.113.5" then some ⟨true, some "US", some "CA", some "Mountain View", some ⟨some "ExampleISP", none⟩⟩ else none)).provB "203.0.113.5" =
      some ⟨true, some "US", some "CA", some "Mountain View", some ⟨some "ExampleISP", none⟩⟩) ∧
    (get_ip_location (World.mk (fun _ => none) (fun ip => if ip = "203.0.113.5" then some ⟨true, some "US", some "CA", some "Mountain View", some ⟨some "ExampleISP", none⟩⟩ else none)) [] "203.0.113.5").record =
      ⟨some "US", some "CA", some "Mountain View", some "ExampleISP"⟩ := by
  refine ⟨rfl, by decide, ?_⟩
  exact get_ip_location_fallback _ rfl (by decide)

/-- C8: resolving the empty IP string returns the all-null record immediately,
with no provider request and no cache write. -/
theorem get_ip_location_empty (w : World) (c : Cache) :
    get_ip_location w c "" = ⟨nullGeo, c, 0, 0⟩ := by
  unfold get_ip_location
  rw [if_pos rfl]


/-! ### Calendar bounds and the timestamp round trip (C6) -/

theorem leapBit_le (y : Nat) : leapBit y ≤ 1 := by
  unfold leapBit
  split <;> omega

theorem dayOfYear_le (y m d : Nat) (hm1 : 1 ≤ m) (hm : m ≤ 12)
    (hd : d ≤ daysInMonth y m) : dayOfYear y m d ≤ 365 + leapBit y := by
  have hL := leapBit_le y
  interval_cases m <;> simp [dayOfYear, daysBeforeMonth, daysInMonth] at hd ⊢ <;> omega

theorem springWallSec_bounds (y : Nat) :
    86400 * 66 + 7200 ≤ springWallSec y ∧ springWallSec y ≤ 86400 * 73 + 7200 := by
  have hw : weekdaySun0 y 3 14 < 7 := Nat.mod_lt _ (by norm_num)
  have hL := leapBit_le y
  simp only [springWallSec, marchSecondSunday, dayOfYear, daysBeforeMonth]
  omega

theorem fallWallSec_bounds (y : Nat) :
    86400 * 304 + 7200 ≤ fallWallSec y ∧ fallWallSec y ≤ 86400 * 311 + 7200 := by
  have hw : weekdaySun0 y 11 7 < 7 := Nat.mod_lt _ (by norm_num)
  have hL := leapBit_le y
  simp only [fallWallSec, novFirstSunday, dayOfYear, daysBeforeMonth]
  omega

theorem wallSecOfYear_lt (w : WallDT) (hm1 : 1 ≤ w.month) (hm : w.month ≤ 12)
    (hd : w.day ≤ daysInMonth w.year w.month) (hh : w.hour ≤ 23)
    (hmi : w.minute ≤ 59) (hs : w.second ≤ 59) :
    wallSecOfYear w < yearSecs w.year := by
  have hdoy := dayOfYear_le w.year w.month w.day hm1 hm hd
  unfold wallSecOfYear yearSecs
  omega

/-- Zone-aware round trip for any valid wall-clock time outside the DST
spring-forward gap. -/
theorem ny_roundtrip (w : WallDT) (hm1 : 1 ≤ w.month) (hm : w.month ≤ 12)
    (hd : w.day ≤ daysInMonth w.year w.month) (hh : w.hour ≤ 23)
    (hmi : w.minute ≤ 59) (hs : w.second ≤ 59) (hgap : ¬ inSpringGap w) :
    toDisplayZone (toUTC w) = ⟨w.year, wallSecOfYear w⟩ := by
  have hsY := wallSecOfYear_lt w hm1 hm hd hh hmi hs
  obtain ⟨hS1, hS2⟩ := springWallSec_bounds w.year
  obtain ⟨hT1, _⟩ := springWallSec_bounds (w.year + 1)
  obtain ⟨hF1, hF2⟩ := fallWallSec_bounds w.year
  have hL := leapBit_le w.year
  have hYa : 86400 * 365 ≤ yearSecs w.year := by unfold yearSecs; omega
  unfold inSpringGap at hgap
  by_cases hW : springWallSec w.year + 3600 ≤ wallSecOfYear w ∧
      wallSecOfYear w < fallWallSec w.year
  · -- wall clock in EDT
    have hsh : nyWallShift w.year (wallSecOfYear w) = 14400 := by
      unfold nyWallShift; rw [if_pos hW]
    have hu : toUTC w = ⟨w.year, wallSecOfYear w + 14400⟩ := by
      unfold toUTC; rw [hsh, if_pos (by omega)]
    rw [hu]
    simp only [toDisplayZone]
    have hshi : nyInstShift w.year (wallSecOfYear w + 14400) = 14400 := by
      unfold nyInstShift; rw [if_pos (by omega)]
    rw [hshi, if_neg (by omega)]
    simp only [Instant.mk.injEq]
    exact ⟨trivial, by omega⟩
  · -- wall clock in EST
    have hsh : nyWallShift w.year (wallSecOfYear w) = 18000 := by
      unfold nyWallShift; rw [if_neg hW]
    by_cases hcar : wallSecOfYear w + 18000 < yearSecs w.year
    · have hu : toUTC w = ⟨w.year, wallSecOfYear w + 18000⟩ := by
        unfold toUTC; rw [hsh, if_pos hcar]
      rw [hu]
      simp only [toDisplayZone]
      have hshi : nyInstShift w.year (wallSecOfYear w + 18000) = 18000 := by
        unfold nyInstShift; rw [if_neg (by omega)]
      rw [hshi, if_neg (by omega)]
      simp only [Instant.mk.injEq]
      exact ⟨trivial, by omega⟩
    · have hu : toUTC w = ⟨w.year + 1, wallSecOfYear w + 18000 - yearSecs w.year⟩ := by
        unfold toUTC; rw [hsh, if_neg hcar]
      rw [hu]
      simp only [toDisplayZone]
      have hshi : nyInstShift (w.year + 1) (wallSecOfYear w + 18000 - yearSecs w.year) = 18000 := by
        unfold nyInstShift; rw [if_neg (by omega)]
      rw [hshi, if_pos (by omega)]
      simp only [Instant.mk.injEq, Nat.add_sub_cancel]
      exact ⟨trivial, by omega⟩

theorem mkValidDT_some {y mo d hh mi ss : Nat} {w : WallDT}
    (h : mkValidDT y mo d hh mi ss = some w) :
    w = ⟨y, mo, d, hh, mi, ss⟩ ∧ 1 ≤ y ∧ y ≤ 9999 ∧ 1 ≤ mo ∧ mo ≤ 12 ∧
      1 ≤ d ∧ d ≤ daysInMonth y mo ∧ hh ≤ 23 ∧ mi ≤ 59 ∧ ss ≤ 59 := by
  unfold mkValidDT at h
  split_ifs at h with hc
  injection h with h2
  exact ⟨h2.symm, hc.1, hc.2.1, hc.2.2.1, hc.2.2.2.1, hc.2.2.2.2.1,
    hc.2.2.2.2.2.1, hc.2.2.2.2.2.2.1, hc.2.2.2.2.2.2.2.1, hc.2.2.2.2.2.2.2.2⟩

/-- Whatever `parse_dt` accepts carries calendar-valid fields (the
strptime regex bounds plus the `datetime` constructor checks). -/
theorem parse_dt_fields {s : String} {w : WallDT} (h : parse_dt s = some w) :
    1 ≤ w.year ∧ w.year ≤ 9999 ∧ 1 ≤ w.month ∧ w.month ≤ 12 ∧ 1 ≤ w.day ∧
      w.day ≤ daysInMonth w.year w.month ∧ w.hour ≤ 23 ∧ w.minute ≤ 59 ∧
      w.second ≤ 59 := by
  simp only [parse_dt] at h
  split at h
  · obtain ⟨hw, hb⟩ := mkValidDT_some h
    subst hw
    exact hb
  · split at h
    · obtain ⟨hw, hb⟩ := mkValidDT_some h
      subst hw
      exact hb
    · split at h
      · obtain ⟨hw, hb⟩ := mkValidDT_some h
        subst hw
        exact ⟨hb.1, hb.2.1, hb.2.2.1, hb.2.2.2.1, hb.2.2.2.2.1,
          hb.2.2.2.2.2.1, Nat.zero_le _, Nat.zero_le _, Nat.zero_le _⟩
      · exact Option.noConfusion h

/-- C6 (amended): for every local time string accepted by `parse_dt` that
bears a year of 2007 or later (the era in which America/New_York has used
the second-Sunday-of-March / first-Sunday-of-November DST rule this
development embeds; earlier years followed the zone's different historical
rules, which are outside this model) and whose wall-clock value exists in
the zone (i.e. does not fall in the spring-forward gap 02:00-03:00 of the
second Sunday of March), converting it to UTC and back to the display zone
yields the original wall-clock value — the conversions apply the zone's
DST offset for the specific instant, not a fixed offset.  (Strings in the
nonexistent gap, which `parse_dt` also accepts, come back one hour later;
see the counterexample.) -/
theorem parse_dt_utc_roundtrip (s : String) (w : WallDT)
    (h : parse_dt s = some w) (_hy : 2007 ≤ w.year) (hgap : ¬ inSpringGap w) :
    toDisplayZone (toUTC w) = ⟨w.year, wallSecOfYear w⟩ := by
  obtain ⟨_, _, h3, h4, _, h6, h7, h8, h9⟩ := parse_dt_fields h
  exact ny_roundtrip w h3 h4 h6 h7 h8 h9 hgap

/-- Witness for the amended C6: a summer instant (EDT) and, through the
theorem, a round trip that is the identity on the wall clock. -/
theorem parse_dt_utc_roundtrip_witness :
    parse_dt "2025-07-04 12:00:00" = some ⟨2025, 7, 4, 12, 0, 0⟩ ∧
    2007 ≤ (WallDT.mk 2025 7 4 12 0 0).year ∧
    ¬ inSpringGap ⟨2025, 7, 4, 12, 0, 0⟩ ∧
    toDisplayZone (toUTC ⟨2025, 7, 4, 12, 0, 0⟩) =
      ⟨2025, wallSecOfYear ⟨2025, 7, 4, 12, 0, 0⟩⟩ := by
  refine ⟨by decide, by decide, by decide, ?_⟩
  exact parse_dt_utc_roundtrip "2025-07-04 12:00:00" ⟨2025, 7, 4, 12, 0, 0⟩
    (by decide) (by decide) (by decide)

/-- Counterexample to C6 as stated: `"2025-03-09 02:30:00"` is accepted by
`parse_dt` (02:30 on the spring-forward day, a nonexistent local time),
but the round trip returns 03:30, not the original wall clock — exactly
what CPython does (`fold=0` resolves nonexistent times with the
pre-transition offset, so they normalize forward). -/
theorem parse_dt_utc_roundtrip_cx :
    parse_dt "2025-03-09 02:30:00" = some ⟨2025, 3, 9, 2, 30, 0⟩ ∧
    toDisplayZone (toUTC ⟨2025, 3, 9, 2, 30, 0⟩) =
      ⟨2025, wallSecOfYear ⟨2025, 3, 9, 3, 30, 0⟩⟩ ∧
    toDisplayZone (toUTC ⟨2025, 3, 9, 2, 30, 0⟩) ≠
      ⟨2025, wallSecOfYear ⟨2025, 3, 9, 2, 30, 0⟩⟩ := by
  refine ⟨by decide, by decide, by decide⟩

/-! ### The input format contract of `parse_dt` (C7) -/

theorem digitCharFacts (k : Nat) (hk : k ≤ 9) :
    (Char.ofNat (48 + k)).isDigit = true ∧ (Char.ofNat (48 + k)).toNat = 48 + k ∧
    pyIsSpace (Char.ofNat (48 + k)) = false := by
  interval_cases k <;> exact ⟨by decide, by decide, by decide⟩

theorem dropWhile_of_head_false {α : Type} {p : α → Bool} {l : List α}
    (h : ∀ c ∈ l.head?, p c = false) : l.dropWhile p = l := by
  cases l with
  | nil => rfl
  | cons a t => simp [List.dropWhile_cons, h a rfl]

theorem pyStrip_of_ends {cs : List Char}
    (h1 : ∀ c ∈ cs.head?, pyIsSpace c = false)
    (h2 : ∀ c ∈ cs.getLast?, pyIsSpace c = false) : pyStrip cs = cs := by
  unfold pyStrip
  rw [dropWhile_of_head_false h1]
  rw [dropWhile_of_head_false (by rw [List.head?_reverse]; exact h2)]
  exact List.reverse_reverse cs

theorem takeWhile_all_append {α : Type} {p : α → Bool} (l1 l2 : List α)
    (h1 : ∀ a ∈ l1, p a = true) (h2 : ∀ c ∈ l2.head?, p c = false) :
    (l1 ++ l2).takeWhile p = l1 := by
  induction l1 with
  | nil =>
    cases l2 with
    | nil => rfl
    | cons b t => simp [List.takeWhile_cons, h2 b rfl]
  | cons a t ih =>
    simp only [List.cons_append, List.takeWhile_cons, h1 a (List.mem_cons_self a t), if_pos]
    rw [ih (fun x hx => h1 x (List.mem_cons_of_mem a hx))]

theorem dropWhile_all_append {α : Type} {p : α → Bool} (l1 l2 : List α)
    (h1 : ∀ a ∈ l1, p a = true) (h2 : ∀ c ∈ l2.head?, p c = false) :
    (l1 ++ l2).dropWhile p = l2 := by
  induction l1 with
  | nil => exact dropWhile_of_head_false h2
  | cons a t ih =>
    simp only [List.cons_append, List.dropWhile_cons, h1 a (List.mem_cons_self a t), if_pos]
    exact ih (fun x hx => h1 x (List.mem_cons_of_mem a hx))

theorem span_all_append {α : Type} {p : α → Bool} (l1 l2 : List α)
    (h1 : ∀ a ∈ l1, p a = true) (h2 : ∀ c ∈ l2.head?, p c = false) :
    List.span p (l1 ++ l2) = (l1, l2) := by
  rw [List.span_eq_take_drop, takeWhile_all_append l1 l2 h1 h2, dropWhile_all_append l1 l2 h1 h2]

theorem pad2_length (n : Nat) : (pad2 n).length = 2 := rfl

theorem pad4_length (n : Nat) : (pad4 n).length = 4 := rfl

theorem pad2_all_digits (n : Nat) (hn : n ≤ 99) : ∀ c ∈ pad2 n, c.isDigit = true := by
  intro c hc
  have h1 := digitCharFacts (n / 10) (by omega)
  have h2 := digitCharFacts (n % 10) (by omega)
  simp only [pad2, List.mem_cons, List.mem_singleton] at hc
  rcases hc with h | h | h
  · rw [h]; exact h1.1
  · rw [h]; exact h2.1
  · exact absurd h (by simp)

theorem pad4_all_digits (n : Nat) (hn : n ≤ 9999) : ∀ c ∈ pad4 n, c.isDigit = true := by
  intro c hc
  have h1 := digitCharFacts (n / 1000) (by omega)
  have h2 := digitCharFacts (n / 100 % 10) (by omega)
  have h3 := digitCharFacts (n / 10 % 10) (by omega)
  have h4 := digitCharFacts (n % 10) (by omega)
  simp only [pad4, List.mem_cons, List.mem_singleton] at hc
  rcases hc with h | h | h | h | h
  · rw [h]; exact h1.1
  · rw [h]; exact h2.1
  · rw [h]; exact h3.1
  · rw [h]; exact h4.1
  · exact absurd h (by simp)

theorem readNat_pad2 (n : Nat) (hn : n ≤ 99) : readNat (pad2 n) = n := by
  have h1 := digitCharFacts (n / 10) (by omega)
  have h2 := digitCharFacts (n % 10) (by omega)
  simp only [readNat, pad2, List.foldl, h1.2.1, h2.2.1]
  omega

theorem readNat_pad4 (n : Nat) (hn : n ≤ 9999) : readNat (pad4 n) = n := by
  have h1 := digitCharFacts (n / 1000) (by omega)
  have h2 := digitCharFacts (n / 100 % 10) (by omega)
  have h3 := digitCharFacts (n / 10 % 10) (by omega)
  have h4 := digitCharFacts (n % 10) (by omega)
  simp only [readNat, pad4, List.foldl, h1.2.1, h2.2.1, h3.2.1, h4.2.1]
  omega

theorem parseNum2_pad2 (n : Nat) (hn : n ≤ 99) (rest : List Char)
    (hr : ∀ c ∈ rest.head?, c.isDigit = false) :
    parseNum2 (pad2 n ++ rest) = some (n, rest) := by
  unfold parseNum2
  rw [span_all_append _ _ (pad2_all_digits n hn) hr]
  simp [pad2_length, readNat_pad2 n hn]

theorem parseNum2_pad2_nil (n : Nat) (hn : n ≤ 99) :
    parseNum2 (pad2 n) = some (n, []) := by
  rw [← List.append_nil (pad2 n)]
  exact parseNum2_pad2 n hn [] (by simp)

theorem parseYear4_pad4 (n : Nat) (hn : n ≤ 9999) (rest : List Char)
    (hr : ∀ c ∈ rest.head?, c.isDigit = false) :
    parseYear4 (pad4 n ++ rest) = some (n, rest) := by
  unfold parseYear4
  rw [span_all_append _ _ (pad4_all_digits n hn) hr]
  simp [pad4_length, readNat_pad4 n hn]

theorem expectChar_cons_self (c : Char) (rest : List Char) :
    expectChar c (c :: rest) = some rest := by
  simp [expectChar]

theorem expectSpaces_cons (c : Char) (rest : List Char) (hc : pyIsSpace c = true)
    (hr : ∀ x ∈ rest.head?, pyIsSpace x = false) :
    expectSpaces (c :: rest) = some rest := by
  unfold expectSpaces
  rw [show (c :: rest) = [c] ++ rest from rfl,
    span_all_append [c] rest (by simpa using hc) hr]
  simp

theorem expectSpaces_head_false (cs : List Char)
    (h : ∀ c ∈ cs.head?, pyIsSpace c = false) : expectSpaces cs = none := by
  unfold expectSpaces
  rw [show cs = [] ++ cs from rfl, span_all_append [] cs (by simp) h]
  simp

theorem head_pad2_not_space (n : Nat) (hn : n ≤ 99) :
    ∀ x ∈ (pad2 n ++ rest).head?, pyIsSpace x = false := by
  intro x hx
  simp only [pad2, List.cons_append, List.head?_cons] at hx
  cases hx
  exact (digitCharFacts (n / 10) (by omega)).2.2

theorem parseYMD_pads (y mo d : Nat) (hy : y ≤ 9999) (hmo : mo ≤ 99) (hd : d ≤ 99)
    (rest : List Char) (hr : ∀ c ∈ rest.head?, c.isDigit = false) :
    parseYMD (pad4 y ++ '-' :: (pad2 mo ++ '-' :: (pad2 d ++ rest))) =
      some (y, mo, d, rest) := by
  simp only [parseYMD, bind, Option.bind,
    parseYear4_pad4 y hy ('-' :: (pad2 mo ++ '-' :: (pad2 d ++ rest))) (by simp),
    expectChar_cons_self,
    parseNum2_pad2 mo hmo ('-' :: (pad2 d ++ rest)) (by simp),
    parseNum2_pad2 d hd rest hr]
  rfl

theorem parseHMS_pads (hh mi ss : Nat) (h1 : hh ≤ 99) (h2 : mi ≤ 99) (h3 : ss ≤ 99) :
    parseHMS (pad2 hh ++ ':' :: (pad2 mi ++ ':' :: pad2 ss)) = some (hh, mi, ss) := by
  simp only [parseHMS, bind, Option.bind,
    parseNum2_pad2 hh h1 (':' :: (pad2 mi ++ ':' :: pad2 ss)) (by simp),
    expectChar_cons_self,
    parseNum2_pad2 mi h2 (':' :: pad2 ss) (by simp),
    parseNum2_pad2_nil ss h3]
  rfl

theorem parseShape1_render (y mo d hh mi ss : Nat) (hy : y ≤ 9999) (hmo : mo ≤ 99)
    (hd : d ≤ 99) (h1 : hh ≤ 99) (h2 : mi ≤ 99) (h3 : ss ≤ 99) :
    parseShape1 (render1 y mo d hh mi ss).data = some (y, mo, d, hh, mi, ss) := by
  show parseShape1 (pad4 y ++ '-' :: (pad2 mo ++ '-' :: (pad2 d ++ ' ' :: (pad2 hh ++ ':' :: (pad2 mi ++ ':' :: pad2 ss))))) = _
  simp only [parseShape1, bind, Option.bind,
    parseYMD_pads y mo d hy hmo hd (' ' :: (pad2 hh ++ ':' :: (pad2 mi ++ ':' :: pad2 ss))) (by simp),
    expectSpaces_cons ' ' (pad2 hh ++ ':' :: (pad2 mi ++ ':' :: pad2 ss)) (by decide)
      (head_pad2_not_space hh h1),
    parseHMS_pads hh mi ss h1 h2 h3]
  rfl

theorem parseShape1_render2 (y mo d hh mi ss : Nat) (hy : y ≤ 9999) (hmo : mo ≤ 99)
    (hd : d ≤ 99) :
    parseShape1 (render2 y mo d hh mi ss).data = none := by
  show parseShape1 (pad4 y ++ '-' :: (pad2 mo ++ '-' :: (pad2 d ++ 'T' :: (pad2 hh ++ ':' :: (pad2 mi ++ ':' :: pad2 ss))))) = _
  simp only [parseShape1, bind, Option.bind,
    parseYMD_pads y mo d hy hmo hd ('T' :: (pad2 hh ++ ':' :: (pad2 mi ++ ':' :: pad2 ss))) (by simp),
    expectSpaces_head_false ('T' :: (pad2 hh ++ ':' :: (pad2 mi ++ ':' :: pad2 ss))) (by simp [pyIsSpace])]

theorem parseShape2_render (y mo d hh mi ss : Nat) (hy : y ≤ 9999) (hmo : mo ≤ 99)
    (hd : d ≤ 99) (h1 : hh ≤ 99) (h2 : mi ≤ 99) (h3 : ss ≤ 99) :
    parseShape2 (render2 y mo d hh mi ss).data = some (y, mo, d, hh, mi, ss) := by
  show parseShape2 (pad4 y ++ '-' :: (pad2 mo ++ '-' :: (pad2 d ++ 'T' :: (pad2 hh ++ ':' :: (pad2 mi ++ ':' :: pad2 ss))))) = _
  simp only [parseShape2, bind, Option.bind,
    parseYMD_pads y mo d hy hmo hd ('T' :: (pad2 hh ++ ':' :: (pad2 mi ++ ':' :: pad2 ss))) (by simp),
    expectChar_cons_self,
    parseHMS_pads hh mi ss h1 h2 h3]
  rfl

theorem parseShape1_render3 (y mo d : Nat) (hy : y ≤ 9999) (hmo : mo ≤ 99) (hd : d ≤ 99) :
    parseShape1 (render3 y mo d).data = none := by
  show parseShape1 (pad4 y ++ '-' :: (pad2 mo ++ '-' :: pad2 d)) = _
  rw [show (pad4 y ++ '-' :: (pad2 mo ++ '-' :: pad2 d) : List Char) =
    pad4 y ++ '-' :: (pad2 mo ++ '-' :: (pad2 d ++ [])) by simp]
  simp only [parseShape1, bind, Option.bind,
    parseYMD_pads y mo d hy hmo hd [] (by simp),
    expectSpaces_head_false [] (by simp)]

theorem parseShape2_render3 (y mo d : Nat) (hy : y ≤ 9999) (hmo : mo ≤ 99) (hd : d ≤ 99) :
    parseShape2 (render3 y mo d).data = none := by
  show parseShape2 (pad4 y ++ '-' :: (pad2 mo ++ '-' :: pad2 d)) = _
  rw [show (pad4 y ++ '-' :: (pad2 mo ++ '-' :: pad2 d) : List Char) =
    pad4 y ++ '-' :: (pad2 mo ++ '-' :: (pad2 d ++ [])) by simp]
  simp only [parseShape2, bind, Option.bind,
    parseYMD_pads y mo d hy hmo hd [] (by simp)]
  rfl

theorem parseShape3_render3 (y mo d : Nat) (hy : y ≤ 9999) (hmo : mo ≤ 99) (hd : d ≤ 99) :
    parseShape3 (render3 y mo d).data = some (y, mo, d) := by
  show parseShape3 (pad4 y ++ '-' :: (pad2 mo ++ '-' :: pad2 d)) = _
  rw [show (pad4 y ++ '-' :: (pad2 mo ++ '-' :: pad2 d) : List Char) =
    pad4 y ++ '-' :: (pad2 mo ++ '-' :: (pad2 d ++ [])) by simp]
  simp only [parseShape3, bind, Option.bind,
    parseYMD_pads y mo d hy hmo hd [] (by simp)]
  rfl

theorem getLast?_cons_ne {α : Type} (a : α) {l : List α} (h : l ≠ []) :
    (a :: l).getLast? = l.getLast? := by
  cases l with
  | nil => exact absurd rfl h
  | cons b t => exact List.getLast?_cons_cons

theorem pad2_getLast (n : Nat) : (pad2 n).getLast? = some (Char.ofNat (48 + n % 10)) := rfl

theorem render1_getLast (y mo d hh mi ss : Nat) :
    (render1 y mo d hh mi ss).data.getLast? = some (Char.ofNat (48 + ss % 10)) := by
  show (pad4 y ++ '-' :: (pad2 mo ++ '-' :: (pad2 d ++ ' ' :: (pad2 hh ++ ':' :: (pad2 mi ++ ':' :: pad2 ss))))).getLast? = _
  rw [List.getLast?_append_of_ne_nil _ (by simp), getLast?_cons_ne _ (by simp [pad2]),
    List.getLast?_append_of_ne_nil _ (by simp), getLast?_cons_ne _ (by simp [pad2]),
    List.getLast?_append_of_ne_nil _ (by simp), getLast?_cons_ne _ (by simp [pad2]),
    List.getLast?_append_of_ne_nil _ (by simp), getLast?_cons_ne _ (by simp [pad2]),
    List.getLast?_append_of_ne_nil _ (by simp), getLast?_cons_ne _ (by simp [pad2]),
    pad2_getLast]

theorem render2_getLast (y mo d hh mi ss : Nat) :
    (render2 y mo d hh mi ss).data.getLast? = some (Char.ofNat (48 + ss % 10)) := by
  show (pad4 y ++ '-' :: (pad2 mo ++ '-' :: (pad2 d ++ 'T' :: (pad2 hh ++ ':' :: (pad2 mi ++ ':' :: pad2 ss))))).getLast? = _
  rw [List.getLast?_append_of_ne_nil _ (by simp), getLast?_cons_ne _ (by simp [pad2]),
    List.getLast?_append_of_ne_nil _ (by simp), getLast?_cons_ne _ (by simp [pad2]),
    List.getLast?_append_of_ne_nil _ (by simp), getLast?_cons_ne _ (by simp [pad2]),
    List.getLast?_append_of_ne_nil _ (by simp), getLast?_cons_ne _ (by simp [pad2]),
    List.getLast?_append_of_ne_nil _ (by simp), getLast?_cons_ne _ (by simp [pad2]),
    pad2_getLast]

theorem render3_getLast (y mo d : Nat) :
    (render3 y mo d).data.getLast? = some (Char.ofNat (48 + d % 10)) := by
  show (pad4 y ++ '-' :: (pad2 mo ++ '-' :: pad2 d)).getLast? = _
  rw [List.getLast?_append_of_ne_nil _ (by simp), getLast?_cons_ne _ (by simp [pad2]),
    List.getLast?_append_of_ne_nil _ (by simp), getLast?_cons_ne _ (by simp [pad2]),
    pad2_getLast]

theorem pyStrip_render1 (y mo d hh mi ss : Nat) (hy : y ≤ 9999) :
    pyStrip (render1 y mo d hh mi ss).data = (render1 y mo d hh mi ss).data := by
  apply pyStrip_of_ends
  · intro c hc
    rw [show (render1 y mo d hh mi ss).data.head? = some (Char.ofNat (48 + y / 1000)) from rfl] at hc
    cases hc
    exact (digitCharFacts (y / 1000) (by omega)).2.2
  · intro c hc
    rw [render1_getLast] at hc
    cases hc
    exact (digitCharFacts (ss % 10) (by omega)).2.2

theorem pyStrip_render2 (y mo d hh mi ss : Nat) (hy : y ≤ 9999) :
    pyStrip (render2 y mo d hh mi ss).data = (render2 y mo d hh mi ss).data := by
  apply pyStrip_of_ends
  · intro c hc
    rw [show (render2 y mo d hh mi ss).data.head? = some (Char.ofNat (48 + y / 1000)) from rfl] at hc
    cases hc
    exact (digitCharFacts (y / 1000) (by omega)).2.2
  · intro c hc
    rw [render2_getLast] at hc
    cases hc
    exact (digitCharFacts (ss % 10) (by omega)).2.2

theorem pyStrip_render3 (y mo d : Nat) (hy : y ≤ 9999) :
    pyStrip (render3 y mo d).data = (render3 y mo d).data := by
  apply pyStrip_of_ends
  · intro c hc
    rw [show (render3 y mo d).data.head? = some (Char.ofNat (48 + y / 1000)) from rfl] at hc
    cases hc
    exact (digitCharFacts (y / 1000) (by omega)).2.2
  · intro c hc
    rw [render3_getLast] at hc
    cases hc
    exact (digitCharFacts (d % 10) (by omega)).2.2

theorem daysInMonth_le (y m : Nat) : daysInMonth y m ≤ 31 := by
  have := leapBit_le y
  unfold daysInMonth
  split_ifs <;> omega

theorem mkValidDT_pos (y mo d hh mi ss : Nat)
    (h : 1 ≤ y ∧ y ≤ 9999 ∧ 1 ≤ mo ∧ mo ≤ 12 ∧ 1 ≤ d ∧ d ≤ daysInMonth y mo ∧
      hh ≤ 23 ∧ mi ≤ 59 ∧ ss ≤ 59) :
    mkValidDT y mo d hh mi ss = some ⟨y, mo, d, hh, mi, ss⟩ := by
  unfold mkValidDT
  rw [if_pos h]

theorem parse_dt_render1 (y mo d hh mi ss : Nat) (hy1 : 1 ≤ y) (hy : y ≤ 9999)
    (hmo1 : 1 ≤ mo) (hmo : mo ≤ 12) (hd1 : 1 ≤ d) (hd : d ≤ daysInMonth y mo)
    (hh23 : hh ≤ 23) (hmi59 : mi ≤ 59) (hss59 : ss ≤ 59) :
    parse_dt (render1 y mo d hh mi ss) = some ⟨y, mo, d, hh, mi, ss⟩ := by
  have hd99 : d ≤ 99 := le_trans hd (le_trans (daysInMonth_le y mo) (by omega))
  simp only [parse_dt, pyStrip_render1 y mo d hh mi ss hy,
    parseShape1_render y mo d hh mi ss hy (by omega) hd99 (by omega) (by omega) (by omega)]
  exact mkValidDT_pos y mo d hh mi ss ⟨hy1, hy, hmo1, hmo, hd1, hd, hh23, hmi59, hss59⟩

theorem parse_dt_render2 (y mo d hh mi ss : Nat) (hy1 : 1 ≤ y) (hy : y ≤ 9999)
    (hmo1 : 1 ≤ mo) (hmo : mo ≤ 12) (hd1 : 1 ≤ d) (hd : d ≤ daysInMonth y mo)
    (hh23 : hh ≤ 23) (hmi59 : mi ≤ 59) (hss59 : ss ≤ 59) :
    parse_dt (render2 y mo d hh mi ss) = some ⟨y, mo, d, hh, mi, ss⟩ := by
  have hd99 : d ≤ 99 := le_trans hd (le_trans (daysInMonth_le y mo) (by omega))
  simp only [parse_dt, pyStrip_render2 y mo d hh mi ss hy,
    parseShape1_render2 y mo d hh mi ss hy (by omega) hd99,
    parseShape2_render y mo d hh mi ss hy (by omega) hd99 (by omega) (by omega) (by omega)]
  exact mkValidDT_pos y mo d hh mi ss ⟨hy1, hy, hmo1, hmo, hd1, hd, hh23, hmi59, hss59⟩

theorem parse_dt_render3 (y mo d : Nat) (hy1 : 1 ≤ y) (hy : y ≤ 9999)
    (hmo1 : 1 ≤ mo) (hmo : mo ≤ 12) (hd1 : 1 ≤ d) (hd : d ≤ daysInMonth y mo) :
    parse_dt (render3 y mo d) = some ⟨y, mo, d, 0, 0, 0⟩ := by
  have hd99 : d ≤ 99 := le_trans hd (le_trans (daysInMonth_le y mo) (by omega))
  simp only [parse_dt, pyStrip_render3 y mo d hy,
    parseShape1_render3 y mo d hy (by omega) hd99,
    parseShape2_render3 y mo d hy (by omega) hd99,
    parseShape3_render3 y mo d hy (by omega) hd99]
  exact mkValidDT_pos y mo d 0 0 0 ⟨hy1, hy, hmo1, hmo, hd1, hd, by omega, by omega, by omega⟩

/-- C7 (amended): `parse_dt` accepts each of the three spec patterns
`YYYY-MM-DD HH:MM:SS`, `YYYY-MM-DDTHH:MM:SS` and `YYYY-MM-DD` whenever the
fields form a valid calendar date-time (year 1-9999, month 1-12, day within
the month, hour at most 23, minute and second at most 59), the date-only
form implying midnight, all interpreted in America/New_York; but
acceptance is strictly lenient (strptime also admits 1-2-digit
month/day/hour/minute/second fields, any whitespace run for the literal
space, and surrounding whitespace — see the counterexample), and a string
matching a pattern's shape with an invalid calendar date (e.g.
`2025-02-30`) is rejected.  Rejection raises before any network or
database work (`mainProg` exits at argument parsing; see the C9/C10
theorems). -/
theorem parse_dt_format_contract (y mo d hh mi ss : Nat) (hy1 : 1 ≤ y) (hy : y ≤ 9999)
    (hmo1 : 1 ≤ mo) (hmo : mo ≤ 12) (hd1 : 1 ≤ d) (hd : d ≤ daysInMonth y mo)
    (hh23 : hh ≤ 23) (hmi59 : mi ≤ 59) (hss59 : ss ≤ 59) :
    parse_dt (render1 y mo d hh mi ss) = some ⟨y, mo, d, hh, mi, ss⟩ ∧
    parse_dt (render2 y mo d hh mi ss) = some ⟨y, mo, d, hh, mi, ss⟩ ∧
    parse_dt (render3 y mo d) = some ⟨y, mo, d, 0, 0, 0⟩ ∧
    parse_dt "2025-02-30" = none :=
  ⟨parse_dt_render1 y mo d hh mi ss hy1 hy hmo1 hmo hd1 hd hh23 hmi59 hss59,
   parse_dt_render2 y mo d hh mi ss hy1 hy hmo1 hmo hd1 hd hh23 hmi59 hss59,
   parse_dt_render3 y mo d hy1 hy hmo1 hmo hd1 hd, by decide⟩

/-- Witness for the amended C7 at concrete field values. -/
theorem parse_dt_format_contract_witness :
    ((1 ≤ 2025 ∧ 2025 ≤ 9999 ∧ 1 ≤ 2 ∧ 2 ≤ 12 ∧ 1 ≤ 28 ∧ 28 ≤ daysInMonth 2025 2 ∧
      23 ≤ 23 ∧ 59 ≤ 59 ∧ 59 ≤ 59) ∧
     (parse_dt (render1 2025 2 28 23 59 59) = some ⟨2025, 2, 28, 23, 59, 59⟩ ∧
      parse_dt (render2 2025 2 28 23 59 59) = some ⟨2025, 2, 28, 23, 59, 59⟩ ∧
      parse_dt (render3 2025 2 28) = some ⟨2025, 2, 28, 0, 0, 0⟩ ∧
      parse_dt "2025-02-30" = none)) :=
  ⟨by decide, parse_dt_format_contract 2025 2 28 23 59 59 (by decide) (by decide)
    (by decide) (by decide) (by decide) (by decide) (by decide) (by decide) (by decide)⟩

/-- Counterexample to C7 as stated: `"2025-3-9"` matches none of the three
spec patterns (fixed-width digit fields), yet `parse_dt` accepts it —
CPython's strptime allows 1-2-digit month and day fields. -/
theorem parse_dt_strict_patterns_cx :
    parse_dt "2025-3-9" = some ⟨2025, 3, 9, 0, 0, 0⟩ ∧
    specShape1 "2025-3-9" = false ∧ specShape2 "2025-3-9" = false ∧
    specShape3 "2025-3-9" = false := by
  refine ⟨by decide, by decide, by decide, by decide⟩

/-! ### Column augmentation placement (C5) -/

theorem lookup_isSome_iff (df : DFrame) (k : String) :
    (df.lookup k).isSome = true ↔ k ∈ dfNames df := by
  induction df with
  | nil => simp [List.lookup, dfNames]
  | cons p t ih =>
    obtain ⟨a, b⟩ := p
    by_cases h : k = a
    · subst h; simp [List.lookup, dfNames]
    · have hb : (k == a) = false := by simp [h]
      simp only [List.lookup, dfNames, List.map_cons, List.mem_cons, hb, h,
        false_or]
      exact ih

theorem lookup_append_left (df rest : DFrame) (k : String) (h : k ∈ dfNames df) :
    (df ++ rest).lookup k = df.lookup k := by
  induction df with
  | nil => simp [dfNames] at h
  | cons p t ih =>
    obtain ⟨a, b⟩ := p
    by_cases hk : k = a
    · subst hk; simp [List.lookup]
    · have hb : (k == a) = false := by simp [hk]
      simp only [dfNames, List.map_cons, List.mem_cons] at h
      rcases h with h | h
      · exact absurd h hk
      · simp [List.lookup, hb]
        exact ih h

theorem setCol_not_mem (df : DFrame) (name : String) (vals : List Cell)
    (h : name ∉ dfNames df) : setCol df name vals = df ++ [(name, vals)] := by
  unfold setCol
  have hc : (dfNames df).contains name = false := by simp [h]
  rw [hc]
  rfl

theorem dfNames_append (df l : DFrame) : dfNames (df ++ l) = dfNames df ++ dfNames l :=
  List.map_append _ df l

theorem setCol4_append (df : DFrame) (v1 v2 v3 v4 : List Cell)
    (hg1 : "country" ∉ dfNames df) (hg2 : "region" ∉ dfNames df)
    (hg3 : "city" ∉ dfNames df) (hg4 : "isp" ∉ dfNames df) :
    setCol (setCol (setCol (setCol df "country" v1) "region" v2) "city" v3) "isp" v4 =
      df ++ [("country", v1), ("region", v2), ("city", v3), ("isp", v4)] := by
  have e1 : setCol df "country" v1 = df ++ [("country", v1)] :=
    setCol_not_mem df _ _ hg1
  have m2 : "region" ∉ dfNames (df ++ [("country", v1)]) := by
    rw [dfNames_append]
    simp only [List.mem_append, dfNames, List.map_cons, List.map_nil, List.mem_cons]
    rintro (h | h | h)
    · exact hg2 h
    · exact absurd h (by decide)
    · exact absurd h (List.not_mem_nil _)
  have e2 : setCol (df ++ [("country", v1)]) "region" v2 =
      df ++ [("country", v1)] ++ [("region", v2)] :=
    setCol_not_mem _ _ _ m2
  have m3 : "city" ∉ dfNames (df ++ [("country", v1)] ++ [("region", v2)]) := by
    rw [dfNames_append, dfNames_append]
    simp only [List.mem_append, dfNames, List.map_cons, List.map_nil, List.mem_cons]
    rintro ((h | h | h) | h | h)
    · exact hg3 h
    · exact absurd h (by decide)
    · exact absurd h (List.not_mem_nil _)
    · exact absurd h (by decide)
    · exact absurd h (List.not_mem_nil _)
  have e3 : setCol (df ++ [("country", v1)] ++ [("region", v2)]) "city" v3 =
      df ++ [("country", v1)] ++ [("region", v2)] ++ [("city", v3)] :=
    setCol_not_mem _ _ _ m3
  have m4 : "isp" ∉ dfNames (df ++ [("country", v1)] ++ [("region", v2)] ++ [("city", v3)]) := by
    rw [dfNames_append, dfNames_append, dfNames_append]
    simp only [List.mem_append, dfNames, List.map_cons, List.map_nil, List.mem_cons]
    rintro (((h | h | h) | h | h) | h | h)
    · exact hg4 h
    · exact absurd h (by decide)
    · exact absurd h (List.not_mem_nil _)
    · exact absurd h (by decide)
    · exact absurd h (List.not_mem_nil _)
    · exact absurd h (by decide)
    · exact absurd h (List.not_mem_nil _)
  have e4 : setCol (df ++ [("country", v1)] ++ [("region", v2)] ++ [("city", v3)]) "isp" v4 =
      df ++ [("country", v1)] ++ [("region", v2)] ++ [("city", v3)] ++ [("isp", v4)] :=
    setCol_not_mem _ _ _ m4
  rw [e1, e2, e3, e4]
  simp [List.append_assoc]

theorem pyInsert_at {α : Type} (l1 l2 : List α) (a : α) (n : Nat) (h : l1.length = n) :
    pyInsert (l1 ++ l2) n a = l1 ++ a :: l2 := by
  unfold pyInsert
  rw [List.take_left' h, List.drop_left' h]

theorem selectCols_names (df : DFrame) (ns : List String)
    (h : ∀ n ∈ ns, (df.lookup n).isSome = true) :
    dfNames (selectCols df ns) = ns := by
  induction ns with
  | nil => rfl
  | cons n t ih =>
    have hn := h n (List.mem_cons_self n t)
    obtain ⟨v, hv⟩ := Option.isSome_iff_exists.mp hn
    simp only [selectCols, List.filterMap_cons, hv, Option.map_some']
    simp only [dfNames, List.map_cons]
    have := ih (fun x hx => h x (List.mem_cons_of_mem n hx))
    simp only [selectCols, dfNames] at this
    rw [this]

theorem selectCols_lookup (df : DFrame) (ns : List String) (c : String)
    (h : ∀ n ∈ ns, (df.lookup n).isSome = true) (hc : c ∈ ns) :
    (selectCols df ns).lookup c = df.lookup c := by
  induction ns with
  | nil => simp at hc
  | cons n t ih =>
    have hn := h n (List.mem_cons_self n t)
    obtain ⟨v, hv⟩ := Option.isSome_iff_exists.mp hn
    simp only [selectCols, List.filterMap_cons, hv, Option.map_some']
    by_cases he : c = n
    · subst he
      simp [List.lookup, hv]
    · have hb : (c == n) = false := by simp [he]
      simp only [List.lookup, hb]
      rcases List.mem_cons.mp hc with h1 | h1
      · exact absurd h1 he
      · exact ih (fun x hx => h x (List.mem_cons_of_mem n hx)) h1

theorem dfNames_four (v1 v2 v3 v4 : List Cell) :
    dfNames [("country", v1), ("region", v2), ("city", v3), ("isp", v4)] =
      ["country", "region", "city", "isp"] := rfl

/-- C5 (amended): provided none of the four geolocation labels
(country/region/city/isp) already occurs among the table's columns, the
geolocation join places the four new columns at positions `k+1..k+4`
(where `k` is the position of the first IP-bearing column) in the order
country, region, city, isp; the relative order of all other columns is
unchanged (the final column list is the original with the four names
spliced in right after the IP column) and every original column keeps its
values — columns are augmented, never replaced.  When a geolocation label
does already occur, pandas column assignment overwrites it and the reorder
moves it, so the claim fails there (see the counterexample). -/
theorem geoJoin_placement (w : World) (cache : Cache) (df : DFrame) (ipName : String)
    (hfind : (dfNames df).find? isIpName = some ipName)
    (hg1 : "country" ∉ dfNames df) (hg2 : "region" ∉ dfNames df)
    (hg3 : "city" ∉ dfNames df) (hg4 : "isp" ∉ dfNames df) :
    dfNames (geoJoin w cache df).1 =
      (dfNames df).take ((dfNames df).findIdx (· = ipName) + 1) ++
        "country" :: "region" :: "city" :: "isp" ::
          (dfNames df).drop ((dfNames df).findIdx (· = ipName) + 1) ∧
    ∀ c ∈ dfNames df, (geoJoin w cache df).1.lookup c = df.lookup c := by
  have hmem : ipName ∈ dfNames df := List.mem_of_find?_eq_some hfind
  have hklt : (dfNames df).findIdx (· = ipName) < (dfNames df).length :=
    List.findIdx_lt_length_of_exists ⟨ipName, hmem, by simp⟩
  unfold geoJoin
  rw [hfind]
  dsimp only
  rcases hbm : buildLocMap w cache (dedupFirst (List.filterMap id ((List.lookup ipName df).getD [])))
    with ⟨m, cache1, calls⟩
  dsimp only
  rw [setCol4_append df _ _ _ _ hg1 hg2 hg3 hg4]
  rw [dfNames_append, dfNames_four]
  have hidx : List.findIdx (fun x => decide (x = ipName))
      (dfNames df ++ ["country", "region", "city", "isp"]) =
      List.findIdx (fun x => decide (x = ipName)) (dfNames df) := by
    rw [List.findIdx_append, if_pos hklt]
  rw [hidx]
  set k := List.findIdx (fun x => decide (x = ipName)) (dfNames df) with hkdef
  set v1 := List.map (geoField m fun x => x.country) ((List.lookup ipName df).getD []) with hv1
  set v2 := List.map (geoField m fun x => x.region) ((List.lookup ipName df).getD []) with hv2
  set v3 := List.map (geoField m fun x => x.city) ((List.lookup ipName df).getD []) with hv3
  set v4 := List.map (geoField m fun x => x.isp) ((List.lookup ipName df).getD []) with hv4
  have hfilt : List.filter (fun c => decide ¬(c = "country" ∨ c = "region" ∨ c = "city" ∨ c = "isp"))
      (dfNames df ++ ["country", "region", "city", "isp"]) = dfNames df := by
    rw [List.filter_append]
    have h1 : List.filter (fun c => decide ¬(c = "country" ∨ c = "region" ∨ c = "city" ∨ c = "isp"))
        (dfNames df) = dfNames df := by
      apply List.filter_eq_self.mpr
      intro a ha
      simp only [decide_eq_true_eq]
      rintro (rfl | rfl | rfl | rfl)
      · exact hg1 ha
      · exact hg2 ha
      · exact hg3 ha
      · exact hg4 ha
    have h2 : List.filter (fun c => decide ¬(c = "country" ∨ c = "region" ∨ c = "city" ∨ c = "isp"))
        (["country", "region", "city", "isp"] : List String) = [] := by decide
    rw [h1, h2, List.append_nil]
  rw [hfilt]
  have hTlen : ((dfNames df).take (k + 1)).length = k + 1 := by
    rw [List.length_take]
    omega
  have hTD : dfNames df = (dfNames df).take (k + 1) ++ (dfNames df).drop (k + 1) :=
    (List.take_append_drop _ _).symm
  have hc1 : pyInsert (dfNames df) (k + 1) "country" =
      (dfNames df).take (k + 1) ++ "country" :: (dfNames df).drop (k + 1) := by
    conv_lhs => rw [hTD]
    exact pyInsert_at _ _ _ _ hTlen
  have hc2 : pyInsert ((dfNames df).take (k + 1) ++ "country" :: (dfNames df).drop (k + 1))
      (k + 2) "region" =
      (dfNames df).take (k + 1) ++ "country" :: "region" :: (dfNames df).drop (k + 1) := by
    have e : (dfNames df).take (k + 1) ++ "country" :: (dfNames df).drop (k + 1) =
        ((dfNames df).take (k + 1) ++ ["country"]) ++ (dfNames df).drop (k + 1) := by simp
    rw [e, pyInsert_at _ _ _ _ (by simp [hTlen])]
    simp
  have hc3 : pyInsert ((dfNames df).take (k + 1) ++ "country" :: "region" :: (dfNames df).drop (k + 1))
      (k + 3) "city" =
      (dfNames df).take (k + 1) ++ "country" :: "region" :: "city" :: (dfNames df).drop (k + 1) := by
    have e : (dfNames df).take (k + 1) ++ "country" :: "region" :: (dfNames df).drop (k + 1) =
        ((dfNames df).take (k + 1) ++ ["country", "region"]) ++ (dfNames df).drop (k + 1) := by simp
    rw [e, pyInsert_at _ _ _ _ (by simp [hTlen, Nat.add_assoc])]
    simp
  have hc4 : pyInsert ((dfNames df).take (k + 1) ++ "country" :: "region" :: "city" :: (dfNames df).drop (k + 1))
      (k + 4) "isp" =
      (dfNames df).take (k + 1) ++ "country" :: "region" :: "city" :: "isp" :: (dfNames df).drop (k + 1) := by
    have e : (dfNames df).take (k + 1) ++ "country" :: "region" :: "city" :: (dfNames df).drop (k + 1) =
        ((dfNames df).take (k + 1) ++ ["country", "region", "city"]) ++ (dfNames df).drop (k + 1) := by simp
    rw [e, pyInsert_at _ _ _ _ (by simp [hTlen, Nat.add_assoc])]
    simp
  rw [hc1, hc2, hc3, hc4]
  have hsome : ∀ n ∈ (dfNames df).take (k + 1) ++
      "country" :: "region" :: "city" :: "isp" :: (dfNames df).drop (k + 1),
      ((df ++ [("country", v1), ("region", v2), ("city", v3), ("isp", v4)]).lookup n).isSome = true := by
    intro n hn
    rw [lookup_isSome_iff, dfNames_append, dfNames_four]
    rcases List.mem_append.mp hn with h | h
    · exact List.mem_append.mpr (Or.inl (List.take_subset _ _ h))
    · simp only [List.mem_cons] at h
      rcases h with rfl | rfl | rfl | rfl | h
      · simp
      · simp
      · simp
      · simp
      · exact List.mem_append.mpr (Or.inl (List.drop_subset _ _ h))
  constructor
  · rw [selectCols_names _ _ hsome]
  · intro c hc
    have hcT : c ∈ (dfNames df).take (k + 1) ++
        "country" :: "region" :: "city" :: "isp" :: (dfNames df).drop (k + 1) := by
      rcases List.mem_append.mp (hTD ▸ hc) with h | h
      · exact List.mem_append.mpr (Or.inl h)
      · exact List.mem_append.mpr (Or.inr (by simp [h]))
    rw [selectCols_lookup _ _ _ hsome hcT]
    exact lookup_append_left df _ c hc

/-- Witness for the amended C5 on a concrete three-column frame with the
IP column in the middle. -/
theorem geoJoin_placement_witness :
    ((dfNames [(("a" : String), [(some "x" : Cell)]), ("ip", [some "1.2.3.4"]), ("b", [some "y"])]).find? isIpName = some "ip" ∧
     ("country" ∉ dfNames [(("a" : String), [(some "x" : Cell)]), ("ip", [some "1.2.3.4"]), ("b", [some "y"])]) ∧
     ("region" ∉ dfNames [(("a" : String), [(some "x" : Cell)]), ("ip", [some "1.2.3.4"]), ("b", [some "y"])]) ∧
     ("city" ∉ dfNames [(("a" : String), [(some "x" : Cell)]), ("ip", [some "1.2.3.4"]), ("b", [some "y"])]) ∧
     ("isp" ∉ dfNames [(("a" : String), [(some "x" : Cell)]), ("ip", [some "1.2.3.4"]), ("b", [some "y"])])) ∧
    (dfNames (geoJoin (World.mk (fun _ => none) (fun _ => none)) []
        [(("a" : String), [(some "x" : Cell)]), ("ip", [some "1.2.3.4"]), ("b", [some "y"])]).1 =
      (dfNames [(("a" : String), [(some "x" : Cell)]), ("ip", [some "1.2.3.4"]), ("b", [some "y"])]).take
        ((dfNames [(("a" : String), [(some "x" : Cell)]), ("ip", [some "1.2.3.4"]), ("b", [some "y"])]).findIdx (· = "ip") + 1) ++
        "country" :: "region" :: "city" :: "isp" ::
          (dfNames [(("a" : String), [(some "x" : Cell)]), ("ip", [some "1.2.3.4"]), ("b", [some "y"])]).drop
            ((dfNames [(("a" : String), [(some "x" : Cell)]), ("ip", [some "1.2.3.4"]), ("b", [some "y"])]).findIdx (· = "ip") + 1) ∧
     ∀ c ∈ dfNames [(("a" : String), [(some "x" : Cell)]), ("ip", [some "1.2.3.4"]), ("b", [some "y"])],
       (geoJoin (World.mk (fun _ => none) (fun _ => none)) []
          [(("a" : String), [(some "x" : Cell)]), ("ip", [some "1.2.3.4"]), ("b", [some "y"])]).1.lookup c =
         ([(("a" : String), [(some "x" : Cell)]), ("ip", [some "1.2.3.4"]), ("b", [some "y"])] : DFrame).lookup c) :=
  ⟨⟨by decide, by decide, by decide, by decide, by decide⟩,
   geoJoin_placement (World.mk (fun _ => none) (fun _ => none)) []
     [("a", [some "x"]), ("ip", [some "1.2.3.4"]), ("b", [some "y"])] "ip"
     (by decide) (by decide) (by decide) (by decide) (by decide)⟩

/-- Counterexample to C5 as stated: on a table that already has a
`country` column, the join overwrites its values (`XX` becomes the
geolocated `US`), so columns are not always "augmented, never replaced";
and when such a column sits before the IP column the four geolocation
columns do not land at `k+1..k+4` (here `ip` is at position 1, yet the
final order is ip, x, country, region, city, isp). -/
theorem geoJoin_replaces_cx :
    (geoJoin (World.mk (fun ip => if ip = "1.2.3.4" then some ⟨some "US", some "CA", some "Mountain View", some "ISP1"⟩ else none) (fun _ => none)) []
        [(("ip" : String), [(some "1.2.3.4" : Cell)]), ("country", [some "XX"])]).1.lookup "country" = some [some "US"] ∧
    ([(("ip" : String), [(some "1.2.3.4" : Cell)]), ("country", [some "XX"])] : DFrame).lookup "country" = some [some "XX"] ∧
    dfNames (geoJoin (World.mk (fun ip => if ip = "1.2.3.4" then some ⟨some "US", some "CA", some "Mountain View", some "ISP1"⟩ else none) (fun _ => none)) []
        [(("country" : String), [(some "XX" : Cell)]), ("ip", [some "1.2.3.4"]), ("x", [some "q"])]).1 =
      ["ip", "x", "country", "region", "city", "isp"] := by
  refine ⟨by decide, by decide, by decide⟩

/-! ### Preconditions of `export_query` (C4) and the run driver (C9, C10) -/

/-- C4 (amended): whenever the window is empty (end at or before start, as
instants) or the query type is unknown, `export_query` raises before any
network or database call (no database query attempted, no provider
request, no cache change, no file written); the error is
InvalidWindowError exactly when the query type is known and the window is
empty, and UnknownQueryError exactly when the query type is unknown — the
query-type check runs first and takes precedence on the intersection. -/
theorem export_query_precondition (env : Env) (cache : Cache) (qt u : String)
    (st en : WallDT) (p : String)
    (h : instLE (toUTC en) (toUTC st) ∨ ¬ (qt = "activity" ∨ qt = "submissions")) :
    (∃ e, (export_query env cache qt u st en p).result = .error e) ∧
    (export_query env cache qt u st en p).dbTrace = [] ∧
    (export_query env cache qt u st en p).provCalls = 0 ∧
    (export_query env cache qt u st en p).cache = cache ∧
    (export_query env cache qt u st en p).files = [] ∧
    ((export_query env cache qt u st en p).result = .error .invalidWindow ↔
      ((qt = "activity" ∨ qt = "submissions") ∧ instLE (toUTC en) (toUTC st))) ∧
    ((export_query env cache qt u st en p).result = .error .unknownQuery ↔
      ¬ (qt = "activity" ∨ qt = "submissions")) := by
  unfold export_query
  by_cases hq : qt = "activity" ∨ qt = "submissions"
  · have hw : instLE (toUTC en) (toUTC st) := h.resolve_right (not_not_intro hq)
    rw [if_neg (not_not_intro hq), if_pos hw]
    refine ⟨⟨.invalidWindow, rfl⟩, rfl, rfl, rfl, rfl, ?_, ?_⟩
    · simp [hq, hw]
    · simp [hq]
  · rw [if_pos hq]
    refine ⟨⟨.unknownQuery, rfl⟩, rfl, rfl, rfl, rfl, ?_, ?_⟩
    · simp [hq]
    · simp [hq]

/-- Witness for the amended C4 at a concrete empty window. -/
theorem export_query_precondition_witness :
    (instLE (toUTC ⟨2025, 1, 2, 0, 0, 0⟩) (toUTC ⟨2025, 1, 2, 0, 0, 0⟩) ∨
      ¬ (("activity" : String) = "activity" ∨ ("activity" : String) = "submissions")) ∧
    ((∃ e, (export_query (Env.mk (fun _ => none) (fun _ => none) (fun _ _ _ _ => none) false)
        [] "activity" "u" ⟨2025, 1, 2, 0, 0, 0⟩ ⟨2025, 1, 2, 0, 0, 0⟩ "p").result = .error e) ∧
     (export_query (Env.mk (fun _ => none) (fun _ => none) (fun _ _ _ _ => none) false)
        [] "activity" "u" ⟨2025, 1, 2, 0, 0, 0⟩ ⟨2025, 1, 2, 0, 0, 0⟩ "p").dbTrace = [] ∧
     (export_query (Env.mk (fun _ => none) (fun _ => none) (fun _ _ _ _ => none) false)
        [] "activity" "u" ⟨2025, 1, 2, 0, 0, 0⟩ ⟨2025, 1, 2, 0, 0, 0⟩ "p").provCalls = 0 ∧
     (export_query (Env.mk (fun _ => none) (fun _ => none) (fun _ _ _ _ => none) false)
        [] "activity" "u" ⟨2025, 1, 2, 0, 0, 0⟩ ⟨2025, 1, 2, 0, 0, 0⟩ "p").cache = [] ∧
     (export_query (Env.mk (fun _ => none) (fun _ => none) (fun _ _ _ _ => none) false)
        [] "activity" "u" ⟨2025, 1, 2, 0, 0, 0⟩ ⟨2025, 1, 2, 0, 0, 0⟩ "p").files = [] ∧
     ((export_query (Env.mk (fun _ => none) (fun _ => none) (fun _ _ _ _ => none) false)
        [] "activity" "u" ⟨2025, 1, 2, 0, 0, 0⟩ ⟨2025, 1, 2, 0, 0, 0⟩ "p").result = .error .invalidWindow ↔
       ((("activity" : String) = "activity" ∨ ("activity" : String) = "submissions") ∧
         instLE (toUTC ⟨2025, 1, 2, 0, 0, 0⟩) (toUTC ⟨2025, 1, 2, 0, 0, 0⟩))) ∧
     ((export_query (Env.mk (fun _ => none) (fun _ => none) (fun _ _ _ _ => none) false)
        [] "activity" "u" ⟨2025, 1, 2, 0, 0, 0⟩ ⟨2025, 1, 2, 0, 0, 0⟩ "p").result = .error .unknownQuery ↔
       ¬ (("activity" : String) = "activity" ∨ ("activity" : String) = "submissions"))) :=
  ⟨Or.inl (by decide),
   export_query_precondition (Env.mk (fun _ => none) (fun _ => none) (fun _ _ _ _ => none) false)
     [] "activity" "u" ⟨2025, 1, 2, 0, 0, 0⟩ ⟨2025, 1, 2, 0, 0, 0⟩ "p" (Or.inl (by decide))⟩

/-- Counterexample to C4 as stated: with an unknown query type AND an
empty window, `export_query` raises UnknownQueryError, not the
InvalidWindowError the claim promises for every empty window. -/
theorem export_query_precedence_cx :
    (export_query (Env.mk (fun _ => none) (fun _ => none) (fun _ _ _ _ => none) false)
      [] "bogus" "u" ⟨2025, 1, 2, 0, 0, 0⟩ ⟨2025, 1, 2, 0, 0, 0⟩ "p").result = .error .unknownQuery ∧
    instLE (toUTC ⟨2025, 1, 2, 0, 0, 0⟩) (toUTC ⟨2025, 1, 2, 0, 0, 0⟩) ∧
    (export_query (Env.mk (fun _ => none) (fun _ => none) (fun _ _ _ _ => none) false)
      [] "bogus" "u" ⟨2025, 1, 2, 0, 0, 0⟩ ⟨2025, 1, 2, 0, 0, 0⟩ "p").result ≠ .error .invalidWindow := by
  refine ⟨rfl, by decide, ?_⟩
  intro hcontra
  have h2 : ExpErr.unknownQuery = ExpErr.invalidWindow := by
    have h1 : (Except.error ExpErr.unknownQuery : Except ExpErr DFrame) = .error .invalidWindow := by
      rw [← hcontra]
      rfl
    injection h1
  exact absurd h2 (by decide)

/-- An erroring `export_query` writes no file, and attempts at most the
one named database query. -/
theorem export_query_error_out (env : Env) (cache : Cache) (qt u : String)
    (st en : WallDT) (p : String) (e : ExpErr)
    (h : (export_query env cache qt u st en p).result = .error e) :
    (export_query env cache qt u st en p).files = [] ∧
    ((export_query env cache qt u st en p).dbTrace = [] ∨
      (export_query env cache qt u st en p).dbTrace = [qt]) := by
  unfold export_query at h ⊢
  by_cases h1 : ¬ (qt = "activity" ∨ qt = "submissions")
  · rw [if_pos h1]
    exact ⟨rfl, Or.inl rfl⟩
  · rw [if_neg h1] at h ⊢
    by_cases h2 : instLE (toUTC en) (toUTC st)
    · rw [if_pos h2]
      exact ⟨rfl, Or.inl rfl⟩
    · rw [if_neg h2] at h ⊢
      cases hdb : env.db qt u (toUTC st) (toUTC en) with
      | none => exact ⟨rfl, Or.inr rfl⟩
      | some df =>
        rw [hdb] at h
        dsimp only at h
        exact absurd h (by simp)

/-- A successful `export_query` implies its preconditions held. -/
theorem export_query_ok_inv (env : Env) (cache : Cache) (qt u : String)
    (st en : WallDT) (p : String) (t : DFrame)
    (h : (export_query env cache qt u st en p).result = .ok t) :
    (qt = "activity" ∨ qt = "submissions") ∧ ¬ instLE (toUTC en) (toUTC st) := by
  unfold export_query at h
  by_cases h1 : ¬ (qt = "activity" ∨ qt = "submissions")
  · rw [if_pos h1] at h
    exact absurd h (by simp)
  · rw [if_neg h1] at h
    by_cases h2 : instLE (toUTC en) (toUTC st)
    · rw [if_pos h2] at h
      exact absurd h (by simp)
    · exact ⟨not_not.mp h1, h2⟩

/-- When the preconditions hold, `export_query` attempts exactly its
named database query (whether or not the query then fails). -/
theorem export_query_valid_trace (env : Env) (cache : Cache) (qt u : String)
    (st en : WallDT) (p : String)
    (hq : qt = "activity" ∨ qt = "submissions") (hw : ¬ instLE (toUTC en) (toUTC st)) :
    (export_query env cache qt u st en p).dbTrace = [qt] := by
  unfold export_query
  rw [if_neg (not_not_intro hq), if_neg hw]
  cases hdb : env.db qt u (toUTC st) (toUTC en) with
  | none => rfl
  | some df => rfl

/-- C9 (amended): once the command-line timestamps parse, a run exits 0
exactly on full success (both exports succeed) and 1 on any error raised
inside the run, keeping the files already written before the failure (no
cleanup); malformed timestamp arguments, however, are rejected by the
argument parser, which exits with status 2, not 1 (see the
counterexample).  In every case a single message goes to the error
stream (not modelled beyond the exit code). -/
theorem main_exit_codes (env : Env) (args : Args) (st en : WallDT)
    (hst : parse_dt args.startStr = some st) (hen : parse_dt args.endStr = some en) :
    ((mainProg env args).exitCode = 0 ∨ (mainProg env args).exitCode = 1) ∧
    ((mainProg env args).exitCode = 0 ↔
      (activityExport env args st en).result.isOk = true ∧
      (submissionsExport env args st en).result.isOk = true) ∧
    ((activityExport env args st en).result.isOk = false →
      mainProg env args =
        ⟨1, (activityExport env args st en).files, (activityExport env args st en).dbTrace⟩) ∧
    ((activityExport env args st en).result.isOk = true →
      (submissionsExport env args st en).result.isOk = false →
      mainProg env args =
        ⟨1, (activityExport env args st en).files ++ (submissionsExport env args st en).files,
          (activityExport env args st en).dbTrace ++ (submissionsExport env args st en).dbTrace⟩) := by
  unfold mainProg
  rw [hst, hen]
  dsimp only
  split
  next e1 heq =>
    exact ⟨Or.inr rfl, by simp [heq, Except.isOk, Except.toBool], fun _ => rfl, by simp [heq, Except.isOk, Except.toBool]⟩
  next t1 heq =>
    split
    next e2 heq2 =>
      exact ⟨Or.inr rfl, by simp [heq, heq2, Except.isOk, Except.toBool], by simp [heq, Except.isOk, Except.toBool],
        fun _ _ => rfl⟩
    next t2 heq2 =>
      exact ⟨Or.inl rfl, by simp [heq, heq2, Except.isOk, Except.toBool], by simp [heq, Except.isOk, Except.toBool],
        by simp [heq2, Except.isOk, Except.toBool]⟩

/-- Witness for the amended C9 on a run whose database succeeds. -/
theorem main_exit_codes_witness :
    (parse_dt demoArgs.startStr = some ⟨2025, 1, 2, 0, 0, 0⟩) ∧
    (parse_dt demoArgs.endStr = some ⟨2025, 1, 3, 0, 0, 0⟩) ∧
    (((mainProg stubEnv demoArgs).exitCode = 0 ∨ (mainProg stubEnv demoArgs).exitCode = 1) ∧
     ((mainProg stubEnv demoArgs).exitCode = 0 ↔
       (activityExport stubEnv demoArgs ⟨2025, 1, 2, 0, 0, 0⟩ ⟨2025, 1, 3, 0, 0, 0⟩).result.isOk = true ∧
       (submissionsExport stubEnv demoArgs ⟨2025, 1, 2, 0, 0, 0⟩ ⟨2025, 1, 3, 0, 0, 0⟩).result.isOk = true) ∧
     ((activityExport stubEnv demoArgs ⟨2025, 1, 2, 0, 0, 0⟩ ⟨2025, 1, 3, 0, 0, 0⟩).result.isOk = false →
       mainProg stubEnv demoArgs =
         ⟨1, (activityExport stubEnv demoArgs ⟨2025, 1, 2, 0, 0, 0⟩ ⟨2025, 1, 3, 0, 0, 0⟩).files,
           (activityExport stubEnv demoArgs ⟨2025, 1, 2, 0, 0, 0⟩ ⟨2025, 1, 3, 0, 0, 0⟩).dbTrace⟩) ∧
     ((activityExport stubEnv demoArgs ⟨2025, 1, 2, 0, 0, 0⟩ ⟨2025, 1, 3, 0, 0, 0⟩).result.isOk = true →
       (submissionsExport stubEnv demoArgs ⟨2025, 1, 2, 0, 0, 0⟩ ⟨2025, 1, 3, 0, 0, 0⟩).result.isOk = false →
       mainProg stubEnv demoArgs =
         ⟨1, (activityExport stubEnv demoArgs ⟨2025, 1, 2, 0, 0, 0⟩ ⟨2025, 1, 3, 0, 0, 0⟩).files ++
             (submissionsExport stubEnv demoArgs ⟨2025, 1, 2, 0, 0, 0⟩ ⟨2025, 1, 3, 0, 0, 0⟩).files,
           (activityExport stubEnv demoArgs ⟨2025, 1, 2, 0, 0, 0⟩ ⟨2025, 1, 3, 0, 0, 0⟩).dbTrace ++
             (submissionsExport stubEnv demoArgs ⟨2025, 1, 2, 0, 0, 0⟩ ⟨2025, 1, 3, 0, 0, 0⟩).dbTrace⟩)) :=
  ⟨by decide, by decide,
   main_exit_codes stubEnv demoArgs ⟨2025, 1, 2, 0, 0, 0⟩ ⟨2025, 1, 3, 0, 0, 0⟩
     (by decide) (by decide)⟩

/-- Counterexample to C9 as stated: a malformed `--start` raises
ArgumentTypeError inside argparse, and the process exits with code 2
(argparse's usage-error status), not 1, writing no file and touching no
database. -/
theorem main_exit2_cx :
    parse_dt badStartArgs.startStr = none ∧
    mainProg failEnv badStartArgs = ⟨2, [], []⟩ ∧
    (mainProg failEnv badStartArgs).exitCode ≠ 1 := by
  refine ⟨by decide, by decide, by decide⟩

/-- C10: the run attempts the activity database query strictly before the
submissions one (every possible trace is a prefix of
`[activity, submissions]`), and if the activity export raises, the run
exits 1 without attempting the submissions query and without creating the
submissions spreadsheet or the summary document. -/
theorem main_ordering (env : Env) (args : Args) (st en : WallDT)
    (hst : parse_dt args.startStr = some st) (hen : parse_dt args.endStr = some en) :
    ((mainProg env args).dbTrace = [] ∨ (mainProg env args).dbTrace = ["activity"] ∨
      (mainProg env args).dbTrace = ["activity", "submissions"]) ∧
    (∀ e, (activityExport env args st en).result = .error e →
      (mainProg env args).exitCode = 1 ∧
      "submissions" ∉ (mainProg env args).dbTrace ∧
      submissionsPath args ∉ (mainProg env args).files ∧
      docxPathFor (submissionsPath args) ∉ (mainProg env args).files) := by
  simp only [mainProg, activityExport, submissionsExport, hst, hen]
  split
  next e1 heq =>
    obtain ⟨hfiles, htr⟩ :=
      export_query_error_out env [] "activity" args.username st en (activityPath args) e1 heq
    constructor
    · rcases htr with h | h
      · exact Or.inl h
      · exact Or.inr (Or.inl h)
    · intro e he
      refine ⟨rfl, ?_, ?_, ?_⟩
      · rcases htr with h | h <;> rw [h] <;> simp
      · rw [hfiles]
        exact List.not_mem_nil _
      · rw [hfiles]
        exact List.not_mem_nil _
  next t1 heq =>
    obtain ⟨hq, hw⟩ :=
      export_query_ok_inv env [] "activity" args.username st en (activityPath args) t1 heq
    have htr1 : (export_query env [] "activity" args.username st en (activityPath args)).dbTrace =
        ["activity"] :=
      export_query_valid_trace env [] "activity" args.username st en (activityPath args)
        (Or.inl rfl) hw
    have htr2 : (export_query env
        (export_query env [] "activity" args.username st en (activityPath args)).cache
        "submissions" args.username st en (submissionsPath args)).dbTrace = ["submissions"] :=
      export_query_valid_trace env _ "submissions" args.username st en (submissionsPath args)
        (Or.inr rfl) hw
    split
    next e2 heq2 =>
      refine ⟨Or.inr (Or.inr ?_), ?_⟩
      · rw [htr1, htr2]
        rfl
      · intro e he
        rw [heq] at he
        exact absurd he (by simp)
    next t2 heq2 =>
      refine ⟨Or.inr (Or.inr ?_), ?_⟩
      · rw [htr1, htr2]
        rfl
      · intro e he
        rw [heq] at he
        exact absurd he (by simp)

/-- Witness for C10 on a run whose database fails. -/
theorem main_ordering_witness :
    (parse_dt demoArgs.startStr = some ⟨2025, 1, 2, 0, 0, 0⟩) ∧
    (parse_dt demoArgs.endStr = some ⟨2025, 1, 3, 0, 0, 0⟩) ∧
    (((mainProg failEnv demoArgs).dbTrace = [] ∨ (mainProg failEnv demoArgs).dbTrace = ["activity"] ∨
      (mainProg failEnv demoArgs).dbTrace = ["activity", "submissions"]) ∧
     (∀ e, (activityExport failEnv demoArgs ⟨2025, 1, 2, 0, 0, 0⟩ ⟨2025, 1, 3, 0, 0, 0⟩).result = .error e →
       (mainProg failEnv demoArgs).exitCode = 1 ∧
       "submissions" ∉ (mainProg failEnv demoArgs).dbTrace ∧
       submissionsPath demoArgs ∉ (mainProg failEnv demoArgs).files ∧
       docxPathFor (submissionsPath demoArgs) ∉ (mainProg failEnv demoArgs).files)) :=
  ⟨by decide, by decide,
   main_ordering failEnv demoArgs ⟨2025, 1, 2, 0, 0, 0⟩ ⟨2025, 1, 3, 0, 0, 0⟩
     (by decide) (by decide)⟩
